import Mathlib

/-!
# Verification of the neutron_fwaas v2 firewall database engine

Shallow embedding of `src/db/firewall/v2/firewall_db_v2.py`
(`Firewall_db_mixin_v2` and its SQLAlchemy models) together with proofs
about the policy ordering engine, the sharing validator, the rule
repository validation, the group lifecycle operations and the default
resource bootstrapper.

Modelling conventions:
* Database rows become Lean structures; tables become lists of rows
  (newly inserted rows are prepended, so `List.find?`, which models a
  primary-key / unique-column lookup, sees the most recent row first —
  primary keys make duplicates impossible in the real store).
* Python `dict` arguments whose keys may be absent become structures of
  `Option` fields (`none` = key absent); a key that may be present with
  value `None` becomes `Option (Option _)`.
* Exceptions become `Except FwErr`; each operation runs in one atomic
  transaction, so an `.error` result carries no mutated state (the
  transaction unwinds with no partial effect).
* Python truthiness of optional strings / integers is made explicit via
  `truthyStr` / `truthyNat` (`None`, `''` and `0` are falsy).
-/

/-- Python truthiness of an optional string (`None` and `''` are falsy). -/
def truthyStr : Option String → Bool
  | none => false
  | some s => !s.isEmpty

/-- Python truthiness of an optional integer (`None` and `0` are falsy). -/
def truthyNat : Option Nat → Bool
  | none => false
  | some n => n != 0

/-- Python `list.insert i a` for a non-negative index `i`: inserts before
index `i`, clamping to the end when `i` exceeds the length. -/
def pyInsert (i : Nat) (a : α) : List α → List α
  | [] => [a]
  | x :: xs =>
    match i with
    | 0 => a :: x :: xs
    | i + 1 => x :: pyInsert i a xs

/-- `neutron_fwaas.common.fwaas_constants.DEFAULT_FWG`: the reserved name of
the per-project default firewall group (the constants module is not part of
the sources; the value is the reserved default-group name used throughout). -/
def DEFAULT_FWG : String := "default"

/-- `fwaas_constants.DEFAULT_FWP_INGRESS`: reserved default ingress policy name. -/
def DEFAULT_FWP_INGRESS : String := "default ingress"

/-- `fwaas_constants.DEFAULT_FWP_EGRESS`: reserved default egress policy name. -/
def DEFAULT_FWP_EGRESS : String := "default egress"

/-- `neutron_lib.constants.PROTO_NAME_TCP`. -/
def PROTO_NAME_TCP : String := "tcp"

/-- `neutron_lib.constants.PROTO_NAME_UDP`. -/
def PROTO_NAME_UDP : String := "udp"

/-- `neutron_lib.constants.INACTIVE` status string. -/
def STATUS_INACTIVE : String := "INACTIVE"

/-- `neutron_lib.constants.PENDING_CREATE` status string. -/
def STATUS_PENDING_CREATE : String := "PENDING_CREATE"

/-- `neutron_lib.constants.PENDING_DELETE` status string. -/
def STATUS_PENDING_DELETE : String := "PENDING_DELETE"

/-- The exceptions raised by the engine (`neutron_lib.exceptions.firewall_v2`,
`oslo_db` duplicate-entry errors, and the module-local default-resource
exceptions).  `ValueError` models Python's `int()` failing on a non-numeric
port string; `TypeError` models the mis-called `self.get_firewall_group`
on line 948 of the source (missing `context` argument). -/
inductive FwErr where
  | FirewallRuleNotFound (firewall_rule_id : String)
  | FirewallPolicyNotFound
  | FirewallGroupNotFound (firewall_id : String)
  | FirewallRuleInfoMissing
  | FirewallRuleAlreadyAssociated (firewall_rule_id firewall_policy_id : String)
  | FirewallRuleNotAssociatedWithPolicy (firewall_rule_id firewall_policy_id : String)
  | FirewallRuleConflict (firewall_rule_id project_id : String)
  | FirewallRuleSharingConflict (firewall_rule_id firewall_policy_id : String)
  | FirewallPolicySharingConflict (firewall_rule_id firewall_policy_id : String)
  | FirewallPolicyConflict (firewall_policy_id : String)
  | FirewallPolicyInUse (firewall_policy_id : String)
  | FirewallRuleInUse (firewall_rule_id : String)
  | FirewallRuleInvalidICMPParameter
  | FirewallRuleWithPortWithoutProtocolInvalid
  | FirewallRuleInvalidPortValue (port : String)
  | FirewallIpAddressConflict
  | FirewallGroupPortInUse (port_ids : List String)
  | FirewallGroupCannotRemoveDefault
  | FirewallDefaultParameterExists (resource_type name : String)
  | FirewallDefaultObjectUpdateRestricted (resource_id : String)
  | DBDuplicateEntry
  | ValueError
  | TypeError
  deriving DecidableEq, Repr

/-- Row of table `firewall_rules_v2` (model `FirewallRuleV2`). -/
structure FirewallRuleV2 where
  id : String
  tenant_id : String
  name : String
  description : String
  shared : Bool
  protocol : Option String
  ip_version : Option Nat
  source_ip_address : Option String
  destination_ip_address : Option String
  source_port_range_min : Option Nat
  source_port_range_max : Option Nat
  destination_port_range_min : Option Nat
  destination_port_range_max : Option Nat
  action : String
  enabled : Bool
  deriving DecidableEq, Repr

/-- Row of table `firewall_policy_rule_associations_v2`
(model `FirewallPolicyRuleAssociation`; the `firewall_policy_id` column is
implicit because each association list lives on its policy). -/
structure FirewallPolicyRuleAssociation where
  firewall_rule_id : String
  position : Nat
  deriving DecidableEq, Repr

/-- Row of table `firewall_policies_v2` (model `FirewallPolicy`).  The
`rule_associations` relationship is an `ordering_list('position',
count_from=1)` ordered by `position`; we keep it as a list whose order is
the position order. -/
structure FirewallPolicy where
  id : String
  tenant_id : String
  name : String
  description : String
  audited : Bool
  shared : Bool
  rule_associations : List FirewallPolicyRuleAssociation
  deriving DecidableEq, Repr

/-- `ordering_list('position', count_from=1).reorder()` starting at `k`:
rewrites every `position` to `k + index`. -/
def reorderFrom (k : Nat) : List FirewallPolicyRuleAssociation →
    List FirewallPolicyRuleAssociation
  | [] => []
  | a :: l => { a with position := k } :: reorderFrom (k + 1) l

/-- `rule_associations.reorder()`: renumber positions densely from 1. -/
def reorder (l : List FirewallPolicyRuleAssociation) :
    List FirewallPolicyRuleAssociation :=
  reorderFrom 1 l

/-- The `firewall_rules` field of `_make_firewall_policy_dict`: the rule ids
in association order (the externally observed order of the policy). -/
def firewall_rules_of (fwp : FirewallPolicy) : List String :=
  fwp.rule_associations.map (·.firewall_rule_id)

/-- The stored positions of a policy are exactly the dense sequence
`1..n` for its `n` associations, in the externally observed order. -/
def positionsDense (fwp : FirewallPolicy) : Prop :=
  fwp.rule_associations.map (·.position) =
    List.range' 1 fwp.rule_associations.length

instance (fwp : FirewallPolicy) : Decidable (positionsDense fwp) := by
  unfold positionsDense; infer_instance

/-- `_process_rule_for_policy`: inside the policy-row lock, either insert the
rule at list index `position - 1` (position numbering starts at 1) or remove
the given association, then `reorder()` and clear the `audited` flag.
Callers pass exactly one of `position` (truthy) / `association`. -/
def process_rule_for_policy (fwp_db : FirewallPolicy) (firewall_rule_id : String)
    (position : Option Nat) (association_db : Option FirewallPolicyRuleAssociation) :
    FirewallPolicy :=
  let assocs :=
    if truthyNat position then
      pyInsert (position.getD 1 - 1) ⟨firewall_rule_id, 0⟩ fwp_db.rule_associations
    else
      match association_db with
      | some a => fwp_db.rule_associations.eraseP
          (fun x => x.firewall_rule_id == a.firewall_rule_id)
      | none => fwp_db.rule_associations
  { fwp_db with rule_associations := reorder assocs, audited := false }

/-- The `rule_info` dict of `insert_rule` / `remove_rule`.  `none` models an
absent key (for the reference fields, also a key present with a falsy value,
which the source treats identically). -/
structure RuleInfo where
  firewall_rule_id : Option String := none
  insert_before : Option String := none
  insert_after : Option String := none
  deriving DecidableEq, Repr

/-- The transactional tail of `insert_rule` (from `with
context.session.begin(...)` on): rule lookup, the cross-project conflict
check, reference-position resolution (position `p` of the reference when
inserting before, `p + 1` when inserting after, `1` when there is no truthy
reference) and `_process_rule_for_policy`. -/
def insert_rule_locked (rules : List FirewallRuleV2) (fwp_db : FirewallPolicy)
    (firewall_rule_id : String) (ref_firewall_rule_id : Option String)
    (insert_before : Bool) : Except FwErr FirewallPolicy :=
  match rules.find? (fun r => r.id == firewall_rule_id) with
  | none => .error (.FirewallRuleNotFound firewall_rule_id)
  | some fwr_db =>
    if !fwr_db.shared && fwr_db.tenant_id != fwp_db.tenant_id then
      .error (.FirewallRuleConflict firewall_rule_id fwr_db.tenant_id)
    else if truthyStr ref_firewall_rule_id then
      match fwp_db.rule_associations.find?
          (fun a => a.firewall_rule_id == ref_firewall_rule_id.getD "") with
      | none => .error (.FirewallRuleNotAssociatedWithPolicy
          (ref_firewall_rule_id.getD "") fwp_db.id)
      | some fwpra_db =>
        .ok (process_rule_for_policy fwp_db firewall_rule_id
          (some (if insert_before then fwpra_db.position
            else fwpra_db.position + 1)) none)
    else
      .ok (process_rule_for_policy fwp_db firewall_rule_id (some 1) none)

/-- `insert_rule(context, id, rule_info)` acting on the policy row `fwp_db`
and the `firewall_rules_v2` table `rules`.  Mirrors the source: request
validation, the already-associated check, reference resolution (a truthy
`insert_before` wins over `insert_after`; an absent or falsy pair means
front insertion), then the transactional tail.  The syntactic uuid check of
`_validate_insert_remove_rule_request` is not modelled (ids are opaque
well-formed strings). -/
def insert_rule (rules : List FirewallRuleV2) (fwp_db : FirewallPolicy)
    (rule_info : RuleInfo) : Except FwErr FirewallPolicy :=
  match rule_info.firewall_rule_id with
  | none => .error .FirewallRuleInfoMissing
  | some firewall_rule_id =>
    if (fwp_db.rule_associations.find?
        (fun a => a.firewall_rule_id == firewall_rule_id)).isSome then
      .error (.FirewallRuleAlreadyAssociated firewall_rule_id fwp_db.id)
    else if truthyStr rule_info.insert_before then
      insert_rule_locked rules fwp_db firewall_rule_id
        rule_info.insert_before true
    else if rule_info.insert_after.isSome then
      insert_rule_locked rules fwp_db firewall_rule_id
        rule_info.insert_after false
    else
      insert_rule_locked rules fwp_db firewall_rule_id
        rule_info.insert_before true

/-- `remove_rule(context, id, rule_info)`. -/
def remove_rule (rules : List FirewallRuleV2) (fwp_db : FirewallPolicy)
    (rule_info : RuleInfo) : Except FwErr FirewallPolicy :=
  match rule_info.firewall_rule_id with
  | none => .error .FirewallRuleInfoMissing
  | some firewall_rule_id =>
    match rules.find? (fun r => r.id == firewall_rule_id) with
    | none => .error (.FirewallRuleNotFound firewall_rule_id)
    | some _ =>
      match fwp_db.rule_associations.find?
          (fun a => a.firewall_rule_id == firewall_rule_id) with
      | none => .error (.FirewallRuleNotAssociatedWithPolicy
          firewall_rule_id fwp_db.id)
      | some fwpra_db =>
        .ok (process_rule_for_policy fwp_db firewall_rule_id none (some fwpra_db))

theorem reorderFrom_map_position (k : Nat) (l : List FirewallPolicyRuleAssociation) :
    (reorderFrom k l).map (·.position) = List.range' k l.length := by
  induction l generalizing k with
  | nil => rfl
  | cons a l ih => simp [reorderFrom, List.range'_succ, ih]

theorem reorderFrom_map_rule_id (k : Nat) (l : List FirewallPolicyRuleAssociation) :
    (reorderFrom k l).map (·.firewall_rule_id) = l.map (·.firewall_rule_id) := by
  induction l generalizing k with
  | nil => rfl
  | cons a l ih => simp [reorderFrom, ih]

theorem reorderFrom_length (k : Nat) (l : List FirewallPolicyRuleAssociation) :
    (reorderFrom k l).length = l.length := by
  induction l generalizing k with
  | nil => rfl
  | cons a l ih => simp [reorderFrom, ih]

/-- Every result of `_process_rule_for_policy` has dense positions `1..n`:
the trailing `reorder()` renumbers whatever list the branch produced. -/
theorem process_rule_for_policy_dense (fwp_db : FirewallPolicy)
    (firewall_rule_id : String) (position : Option Nat)
    (association_db : Option FirewallPolicyRuleAssociation) :
    positionsDense (process_rule_for_policy fwp_db firewall_rule_id position
      association_db) := by
  unfold positionsDense process_rule_for_policy reorder
  simp [reorderFrom_map_position, reorderFrom_length]

/-- The `firewall_policy` dict of `update_firewall_policy` /
`_do_create_firewall_policy` (outer `Option` = key present in the dict). -/
structure PolicyUpdate where
  name : Option String := none
  description : Option String := none
  audited : Option Bool := none
  shared : Option Bool := none
  firewall_rules : Option (List String) := none
  deriving DecidableEq, Repr

/-- Loop body of `_check_rules_for_policy_is_valid`.  `rules_dict` is built
from a `_get_collection_query` on `FirewallRuleV2` (the filter key
`firewall_rule_id` is not a column of that model, so the query in the source
degenerates to the whole table; membership in the dict is therefore exactly
existence in the `rules` table).  Mirrors the Python `if`/`elif`/`else`
chain: when the update dict carries a `shared` key only the
shared-policy/shared-rule check runs; otherwise a stored shared policy
requires shared rules, and an unshared policy requires unshared rules to
belong to its own project. -/
def check_rules_for_policy_is_valid (rules : List FirewallRuleV2)
    (fwp : PolicyUpdate) (fwp_db : FirewallPolicy) :
    List String → Except FwErr Unit
  | [] => .ok ()
  | fwrule_id :: rest =>
    match rules.find? (fun r => r.id == fwrule_id) with
    | none => .error (.FirewallRuleNotFound fwrule_id)
    | some r =>
      match fwp.shared with
      | some b =>
        if b && !r.shared then
          .error (.FirewallRuleSharingConflict fwrule_id fwp_db.id)
        else
          check_rules_for_policy_is_valid rules fwp fwp_db rest
      | none =>
        if fwp_db.shared && !r.shared then
          .error (.FirewallRuleSharingConflict fwrule_id fwp_db.id)
        else if !r.shared && fwp_db.tenant_id != r.tenant_id then
          .error (.FirewallRuleConflict fwrule_id r.tenant_id)
        else
          check_rules_for_policy_is_valid rules fwp fwp_db rest

/-- Loop of `_check_if_rules_shared_for_policy_shared`: when the update sets
`shared`, walk the existing associations, fetch each rule row, and raise
`FirewallPolicySharingConflict` whenever the *stored policy's* `shared`
column is false (this is what the source tests — the fetched rule row's own
`shared` flag is never consulted). -/
def check_if_rules_shared_loop (rules : List FirewallRuleV2)
    (fwp_db : FirewallPolicy) :
    List FirewallPolicyRuleAssociation → Except FwErr Unit
  | [] => .ok ()
  | entry :: rest =>
    match rules.find? (fun r => r.id == entry.firewall_rule_id) with
    | none => .error (.FirewallRuleNotFound entry.firewall_rule_id)
    | some fwr_db =>
      if !fwp_db.shared then
        .error (.FirewallPolicySharingConflict fwr_db.id fwp_db.id)
      else
        check_if_rules_shared_loop rules fwp_db rest

/-- `_check_if_rules_shared_for_policy_shared(context, fwp_db, fwp)`.  The
callers guarantee `'shared' in fwp`; `fwp.shared.getD false` models
`fwp['shared']` under that guarantee. -/
def check_if_rules_shared_for_policy_shared (rules : List FirewallRuleV2)
    (fwp_db : FirewallPolicy) (fwp : PolicyUpdate) : Except FwErr Unit :=
  if fwp.shared.getD false then
    check_if_rules_shared_loop rules fwp_db fwp_db.rule_associations
  else
    .ok ()

/-- `_set_rules_for_policy(context, firewall_policy_db, fwp)`.  An empty (or
absent) rule list deletes every association.  Otherwise the candidate list is
validated first; then the old associations are deleted, fresh rows are
inserted at positions `0..n-1` (`_set_rules_in_policy_rule_assoc`; the
`(policy, rule)` primary key turns a duplicated id in the list into a
`DBDuplicateEntry` on flush), the relationship is rebuilt in list order and
`reorder()` renumbers the positions from 1. -/
def set_rules_for_policy (rules : List FirewallRuleV2)
    (fwp_db : FirewallPolicy) (fwp : PolicyUpdate) : Except FwErr FirewallPolicy :=
  let rule_id_list := fwp.firewall_rules.getD []
  if rule_id_list.isEmpty then
    .ok { fwp_db with rule_associations := [] }
  else
    match check_rules_for_policy_is_valid rules fwp fwp_db rule_id_list with
    | .error e => .error e
    | .ok _ =>
      if rule_id_list.Nodup then
        let newAssocs := reorder (rule_id_list.map (fun rid => ⟨rid, 0⟩))
        .ok { fwp_db with rule_associations := newAssocs }
      else
        .error .DBDuplicateEntry

/-- Row of table `firewall_groups_v2` (model `FirewallGroup`). -/
structure FirewallGroup where
  id : String
  tenant_id : String
  name : String
  description : String
  ingress_firewall_policy_id : Option String
  egress_firewall_policy_id : Option String
  admin_state_up : Bool
  status : String
  shared : Bool
  deriving DecidableEq, Repr

/-- `_check_fwgs_associated_with_policy_in_same_project`: any group that
references the policy from a different project raises `FirewallPolicyInUse`. -/
def check_fwgs_associated_with_policy_in_same_project
    (groups : List FirewallGroup) (fwp_id fwp_tenant_id : String) :
    Except FwErr Unit :=
  if groups.any (fun g =>
      (g.ingress_firewall_policy_id == some fwp_id ||
       g.egress_firewall_policy_id == some fwp_id) &&
      g.tenant_id != fwp_tenant_id) then
    .error (.FirewallPolicyInUse fwp_id)
  else
    .ok ()

/-- `_ensure_not_default_resource(resource, 'firewall_policy', action)`
applied to a stored policy row. -/
def ensure_policy_not_default (fwp_db : FirewallPolicy) : Except FwErr Unit :=
  if fwp_db.name == DEFAULT_FWP_INGRESS || fwp_db.name == DEFAULT_FWP_EGRESS then
    .error (.FirewallDefaultObjectUpdateRestricted fwp_db.id)
  else
    .ok ()

/-- `update_firewall_policy(context, id, firewall_policy)` acting on the
already-fetched policy row `fwp_db`, the rules table and the groups table.
Mirrors the source: default-resource guard; the same-project group check when
the update sets `shared` to a falsy value; the shared-rules check when
`shared` is present without `firewall_rules`; `_set_rules_for_policy` when
`firewall_rules` is present (the key is then deleted); `audited` forced to
`False` when absent; finally `fwp_db.update(fwp)` applies the remaining
keys. -/
def update_firewall_policy (rules : List FirewallRuleV2)
    (groups : List FirewallGroup) (fwp_db : FirewallPolicy)
    (fwp : PolicyUpdate) : Except FwErr FirewallPolicy :=
  match ensure_policy_not_default fwp_db with
  | .error e => .error e
  | .ok _ =>
    match (if !(fwp.shared.getD true) then
        check_fwgs_associated_with_policy_in_same_project groups fwp_db.id
          fwp_db.tenant_id
      else .ok ()) with
    | .error e => .error e
    | .ok _ =>
      match (if fwp.shared.isSome && fwp.firewall_rules.isNone then
          check_if_rules_shared_for_policy_shared rules fwp_db fwp
        else .ok ()) with
      | .error e => .error e
      | .ok _ =>
        match (if fwp.firewall_rules.isSome then
            set_rules_for_policy rules fwp_db fwp
          else .ok fwp_db) with
        | .error e => .error e
        | .ok fwp_db' =>
          .ok { fwp_db' with
            name := fwp.name.getD fwp_db'.name,
            description := fwp.description.getD fwp_db'.description,
            shared := fwp.shared.getD fwp_db'.shared,
            audited := fwp.audited.getD false }

/-- `str.partition(':')` on a character list: the part before the first
colon and the part after it (both empty-ish behaviours of the source —
no colon found, or a trailing colon — yield an empty second part, which
the caller treats the same way). -/
def partitionColon : List Char → List Char × List Char
  | [] => ([], [])
  | c :: rest =>
    if c = ':' then ([], rest)
    else
      let p := partitionColon rest
      (c :: p.1, p.2)

/-- Decimal digit value of a character, if it is a digit. -/
def digitVal (c : Char) : Option Nat :=
  if '0' ≤ c ∧ c ≤ '9' then some (c.toNat - '0'.toNat) else none

/-- Accumulating decimal parser over a character list. -/
def parseNatAux (acc : Nat) : List Char → Option Nat
  | [] => some acc
  | c :: rest =>
    match digitVal c with
    | some d => parseNatAux (acc * 10 + d) rest
    | none => none

/-- Python `int(s)` restricted to the non-negative decimal literals that
occur as port bounds; any other string raises `ValueError`. -/
def parseNat : List Char → Option Nat
  | [] => none
  | s => parseNatAux 0 s

/-- `_get_min_max_ports_from_range(port_range)`: a falsy range yields
`(None, None)`; otherwise split on the first `:` (an absent or empty max
defaults to the min), convert both bounds with `int` and check
`min <= max` (`_validate_fwr_port_range`). -/
def get_min_max_ports_from_range (port_range : Option String) :
    Except FwErr (Option Nat × Option Nat) :=
  if !truthyStr port_range then
    .ok (none, none)
  else
    let s := port_range.getD ""
    let p := partitionColon s.toList
    let min_port := p.1
    let max_port := if p.2.isEmpty then min_port else p.2
    match parseNat min_port, parseNat max_port with
    | some mn, some mx =>
      if mn > mx then .error (.FirewallRuleInvalidPortValue s)
      else .ok (some mn, some mx)
    | _, _ => .error .ValueError

/-- `netaddr.IPNetwork(s).version` for the well-formed address literals the
API accepts: IPv6 literals contain a colon, IPv4 literals do not
(malformed addresses are outside the model). -/
def ip_version_of (s : String) : Nat :=
  if s.toList.contains ':' then 6 else 4

/-- `_validate_fwr_protocol_parameters(fwr, fwr_db)`.  `fwr_protocol`,
`fwr_source_port` and `fwr_destination_port` are the `.get(..., None)`
values from the request dict; `fwr_db_protocol` is `some` of the stored
protocol on the update path and `none` on the create path.  A falsy
request protocol falls back to the stored one; a non-TCP/UDP protocol
with a truthy port *in the request dict* is rejected. -/
def validate_fwr_protocol_parameters (fwr_protocol : Option String)
    (fwr_source_port fwr_destination_port : Option String)
    (fwr_db_protocol : Option (Option String)) : Except FwErr Unit :=
  let protocol :=
    if fwr_db_protocol.isSome && !truthyStr fwr_protocol then
      fwr_db_protocol.getD none
    else fwr_protocol
  if protocol != some PROTO_NAME_TCP && protocol != some PROTO_NAME_UDP then
    if truthyStr fwr_source_port || truthyStr fwr_destination_port then
      .error .FirewallRuleInvalidICMPParameter
    else .ok ()
  else .ok ()

/-- `_validate_fwr_src_dst_ip_version(fwr, fwr_db)`: any truthy literal
address in the request must match the rule's effective IP version (a falsy
requested version falls back to the stored one on the update path). -/
def validate_fwr_src_dst_ip_version (src dst : Option String)
    (ipv : Option Nat) (fwr_db_ip_version : Option (Option Nat)) :
    Except FwErr Unit :=
  let src_version : Option Nat :=
    if truthyStr src then some (ip_version_of (src.getD "")) else none
  let dst_version : Option Nat :=
    if truthyStr dst then some (ip_version_of (dst.getD "")) else none
  let rule_ip_version :=
    if !truthyNat ipv && fwr_db_ip_version.isSome then
      fwr_db_ip_version.getD none
    else ipv
  if (src_version.isSome && src_version != rule_ip_version) ||
     (dst_version.isSome && dst_version != rule_ip_version) then
    .error .FirewallIpAddressConflict
  else .ok ()

/-- The `firewall_rule` dict of `create_firewall_rule` (every key present,
as built by the API layer and by `_create_default_firewall_rules`). -/
structure RuleCreate where
  tenant_id : String
  name : String
  description : String
  shared : Bool
  protocol : Option String
  ip_version : Option Nat
  source_ip_address : Option String
  destination_ip_address : Option String
  source_port : Option String
  destination_port : Option String
  action : String
  enabled : Bool
  deriving DecidableEq, Repr

/-- `create_firewall_rule(context, firewall_rule)`; `newId` stands for
`uuidutils.generate_uuid()`.  Validation order follows the source:
protocol/port validation, IP-version validation, the explicit
port-without-protocol check, then range parsing, then the row is built. -/
def create_firewall_rule (newId : String) (fwr : RuleCreate) :
    Except FwErr FirewallRuleV2 :=
  match validate_fwr_protocol_parameters fwr.protocol fwr.source_port
      fwr.destination_port none with
  | .error e => .error e
  | .ok _ =>
    match validate_fwr_src_dst_ip_version fwr.source_ip_address
        fwr.destination_ip_address fwr.ip_version none with
    | .error e => .error e
    | .ok _ =>
      if !truthyStr fwr.protocol &&
          (truthyStr fwr.source_port || truthyStr fwr.destination_port) then
        .error .FirewallRuleWithPortWithoutProtocolInvalid
      else
        match get_min_max_ports_from_range fwr.source_port with
        | .error e => .error e
        | .ok src =>
          match get_min_max_ports_from_range fwr.destination_port with
          | .error e => .error e
          | .ok dst =>
            .ok {
              id := newId,
              tenant_id := fwr.tenant_id,
              name := fwr.name,
              description := fwr.description,
              shared := fwr.shared,
              protocol := fwr.protocol,
              ip_version := fwr.ip_version,
              source_ip_address := fwr.source_ip_address,
              destination_ip_address := fwr.destination_ip_address,
              source_port_range_min := src.1,
              source_port_range_max := src.2,
              destination_port_range_min := dst.1,
              destination_port_range_max := dst.2,
              action := fwr.action,
              enabled := fwr.enabled }

/-- The `firewall_rule` dict of `update_firewall_rule`: a partial patch
(outer `Option` = key present; inner `Option` = the value, which may be
`None`). -/
structure RulePatch where
  name : Option String := none
  description : Option String := none
  shared : Option Bool := none
  protocol : Option (Option String) := none
  ip_version : Option (Option Nat) := none
  source_ip_address : Option (Option String) := none
  destination_ip_address : Option (Option String) := none
  source_port : Option (Option String) := none
  destination_port : Option (Option String) := none
  action : Option String := none
  enabled : Option Bool := none
  deriving DecidableEq, Repr

/-- `update_firewall_rule(context, id, firewall_rule)` acting on the fetched
rule row and the policies table (whose `audited` flags it clears for every
policy containing the rule).  Mirrors the source: the two validators run
against the stored row; a present `source_port`/`destination_port` key is
parsed and replaced by its range bounds; inside the transaction the merged
protocol (request value if the key is present, else stored) is re-checked
against the merged minimum ports; then `fwr_db.update(fwr)` applies the
patch. -/
def update_firewall_rule (fwr_db : FirewallRuleV2)
    (policies : List FirewallPolicy) (fwr : RulePatch) :
    Except FwErr (FirewallRuleV2 × List FirewallPolicy) :=
  match validate_fwr_protocol_parameters (fwr.protocol.getD none)
      (fwr.source_port.getD none) (fwr.destination_port.getD none)
      (some fwr_db.protocol) with
  | .error e => .error e
  | .ok _ =>
    match validate_fwr_src_dst_ip_version (fwr.source_ip_address.getD none)
        (fwr.destination_ip_address.getD none) (fwr.ip_version.getD none)
        (some fwr_db.ip_version) with
    | .error e => .error e
    | .ok _ =>
      match (match fwr.source_port with
        | some sp => (get_min_max_ports_from_range sp).map some
        | none => .ok none) with
      | .error e => .error e
      | .ok src_range =>
        match (match fwr.destination_port with
          | some dp => (get_min_max_ports_from_range dp).map some
          | none => .ok none) with
        | .error e => .error e
        | .ok dst_range =>
          let protocol := match fwr.protocol with
            | some v => v
            | none => fwr_db.protocol
          let sport := match src_range with
            | some r => r.1
            | none => fwr_db.source_port_range_min
          let dport := match dst_range with
            | some r => r.1
            | none => fwr_db.destination_port_range_min
          if !truthyStr protocol && (truthyNat sport || truthyNat dport) then
            .error .FirewallRuleWithPortWithoutProtocolInvalid
          else
            let fwr_db' : FirewallRuleV2 := {
              id := fwr_db.id,
              tenant_id := fwr_db.tenant_id,
              name := fwr.name.getD fwr_db.name,
              description := fwr.description.getD fwr_db.description,
              shared := fwr.shared.getD fwr_db.shared,
              protocol := protocol,
              ip_version := match fwr.ip_version with
                | some v => v
                | none => fwr_db.ip_version,
              source_ip_address := match fwr.source_ip_address with
                | some v => v
                | none => fwr_db.source_ip_address,
              destination_ip_address := match fwr.destination_ip_address with
                | some v => v
                | none => fwr_db.destination_ip_address,
              source_port_range_min := sport,
              source_port_range_max := match src_range with
                | some r => r.2
                | none => fwr_db.source_port_range_max,
              destination_port_range_min := dport,
              destination_port_range_max := match dst_range with
                | some r => r.2
                | none => fwr_db.destination_port_range_max,
              action := fwr.action.getD fwr_db.action,
              enabled := fwr.enabled.getD fwr_db.enabled }
            let policies' := policies.map (fun p =>
              if p.rule_associations.any
                  (fun a => a.firewall_rule_id == fwr_db.id) then
                { p with audited := false }
              else p)
            .ok (fwr_db', policies')

/-- Row of table `default_firewall_groups` (model `DefaultFirewallGroup`):
`project_id` is the primary key, `firewall_group_id` a cascading foreign
key into `firewall_groups_v2`. -/
structure DefaultFirewallGroup where
  project_id : String
  firewall_group_id : String
  deriving DecidableEq, Repr

/-- Row of table `firewall_group_port_associations_v2`
(model `FirewallGroupPortAssociation`); `port_id` carries a global
uniqueness constraint. -/
structure FirewallGroupPortAssociation where
  firewall_group_id : String
  port_id : String
  deriving DecidableEq, Repr

/-- The five persisted relations plus the per-project default marker. -/
structure DB where
  rules : List FirewallRuleV2 := []
  policies : List FirewallPolicy := []
  groups : List FirewallGroup := []
  group_ports : List FirewallGroupPortAssociation := []
  default_groups : List DefaultFirewallGroup := []
  deriving DecidableEq, Repr

/-- `_get_default_fwg_id(context, tenant_id)`: the id of the first firewall
*group* row whose project is `tenant_id` and whose *name* is the reserved
default name — the marker table is not consulted. -/
def get_default_fwg_id (db : DB) (tenant_id : String) : Option String :=
  (db.groups.find? (fun g => g.tenant_id == tenant_id &&
    g.name == DEFAULT_FWG)).map (·.id)

/-- The bootstrapper's "does a default firewall group already exist"
decision (`exists = self._get_default_fwg_id(...)` on lines 882-884). -/
def default_exists_decision (db : DB) (tenant_id : String) : Bool :=
  (get_default_fwg_id db tenant_id).isSome

/-- Whether a `default_firewall_groups` marker row exists for the project
(this is what the `project_id` primary key makes unique). -/
def marker_exists (db : DB) (tenant_id : String) : Bool :=
  db.default_groups.any (fun r => r.project_id == tenant_id)

/-- The `firewall_policy` dict as built by `_create_default_firewall_policy`
and `create_firewall_policy` (all keys present). -/
structure PolicyCreate where
  tenant_id : String
  name : String
  description : String
  audited : Bool
  shared : Bool
  firewall_rules : List String
  deriving DecidableEq, Repr

/-- `_do_create_firewall_policy(context, firewall_policy)`: build the policy
row, add it to the policies table and run `_set_rules_for_policy` with the
full create dict (which carries both the `shared` and `firewall_rules`
keys). -/
def do_create_firewall_policy (db : DB) (newId : String) (fwp : PolicyCreate) :
    Except FwErr (DB × FirewallPolicy) :=
  let fwp_db : FirewallPolicy := {
    id := newId,
    tenant_id := fwp.tenant_id,
    name := fwp.name,
    description := fwp.description,
    audited := fwp.audited,
    shared := fwp.shared,
    rule_associations := [] }
  match set_rules_for_policy db.rules fwp_db
      { name := some fwp.name, description := some fwp.description,
        audited := some fwp.audited, shared := some fwp.shared,
        firewall_rules := some fwp.firewall_rules } with
  | .error e => .error e
  | .ok fwp_db' => .ok ({ db with policies := fwp_db' :: db.policies }, fwp_db')

/-- `_create_default_firewall_policy(context, tenant_id, policy_type,
**kwargs)`. -/
def create_default_firewall_policy (db : DB) (newId tenant_id : String)
    (ingress : Bool) (firewall_rules : List String) (description : String) :
    Except FwErr (DB × FirewallPolicy) :=
  do_create_firewall_policy db newId {
    tenant_id := tenant_id,
    name := if ingress then DEFAULT_FWP_INGRESS else DEFAULT_FWP_EGRESS,
    description := description,
    audited := false,
    shared := false,
    firewall_rules := firewall_rules }

/-- The four default rule ids returned by `_create_default_firewall_rules`. -/
structure DefaultRuleIds where
  in_ipv4 : String
  in_ipv6 : String
  eg_ipv4 : String
  eg_ipv6 : String
  deriving DecidableEq, Repr

/-- One default rule dict of `_create_default_firewall_rules` (shared only
the fields that vary: name, description, IP version and action). -/
def default_rule_dict (tenant_id name description : String) (ipv : Nat)
    (action : String) : RuleCreate := {
  tenant_id := tenant_id,
  name := name,
  description := description,
  shared := false,
  protocol := none,
  ip_version := some ipv,
  source_ip_address := none,
  destination_ip_address := none,
  source_port := none,
  destination_port := none,
  action := action,
  enabled := true }

/-- `_create_default_firewall_rules(context, tenant_id)`: create the
ingress-v4/v6 deny rules and the egress-v4/v6 allow rules. -/
def create_default_firewall_rules (db : DB) (tenant_id : String)
    (ids : DefaultRuleIds) : Except FwErr DB :=
  match create_firewall_rule ids.in_ipv4 (default_rule_dict tenant_id
      "default ingress ipv4 (deny all)" "default ingress rule for IPv4" 4
      "deny") with
  | .error e => .error e
  | .ok r1 =>
    match create_firewall_rule ids.in_ipv6 (default_rule_dict tenant_id
        "default ingress ipv6 (deny all)" "default ingress rule for IPv6" 6
        "deny") with
    | .error e => .error e
    | .ok r2 =>
      match create_firewall_rule ids.eg_ipv4 (default_rule_dict tenant_id
          "default egress ipv4 (allow all)" "default egress rule for IPv4" 4
          "allow") with
      | .error e => .error e
      | .ok r3 =>
        match create_firewall_rule ids.eg_ipv6 (default_rule_dict tenant_id
            "default egress ipv6 (allow all)" "default egress rule for IPv6" 6
            "allow") with
        | .error e => .error e
        | .ok r4 =>
          .ok { db with rules := r4 :: r3 :: r2 :: r1 :: db.rules }

/-- `_validate_tenant_for_fwg_policies(context, fwg, fwg_tenant_id)`: each
policy reference present in the group dict must exist and be either owned
by the group's project or shared. -/
def validate_one_fwg_policy (policies : List FirewallPolicy)
    (fwp_id : Option (Option String)) (fwg_tenant_id : String) :
    Except FwErr Unit :=
  match fwp_id with
  | none => .ok ()
  | some none => .ok ()
  | some (some pid) =>
    match policies.find? (fun p => p.id == pid) with
    | none => .error .FirewallPolicyNotFound
    | some fwp =>
      if fwg_tenant_id != fwp.tenant_id && !fwp.shared then
        .error (.FirewallPolicyConflict pid)
      else .ok ()

/-- Both halves of `_validate_tenant_for_fwg_policies`. -/
def validate_tenant_for_fwg_policies (policies : List FirewallPolicy)
    (ingress egress : Option (Option String)) (fwg_tenant_id : String) :
    Except FwErr Unit :=
  match validate_one_fwg_policy policies ingress fwg_tenant_id with
  | .error e => .error e
  | .ok _ => validate_one_fwg_policy policies egress fwg_tenant_id

/-- Inner loop of `_set_ports_for_firewall_group`: port-by-port insertion;
a port whose global uniqueness constraint fires is collected instead of
aborting, and the offending subset is raised at the end. -/
def set_ports_loop (fwg_id : String) (db : DB) (exc_ports : List String) :
    List String → Except FwErr DB
  | [] =>
    if exc_ports.isEmpty then .ok db
    else .error (.FirewallGroupPortInUse exc_ports.reverse)
  | port_id :: rest =>
    if db.group_ports.any (fun b => b.port_id == port_id) then
      set_ports_loop fwg_id db (port_id :: exc_ports) rest
    else
      set_ports_loop fwg_id
        { db with group_ports := ⟨fwg_id, port_id⟩ :: db.group_ports }
        exc_ports rest

/-- `_set_ports_for_firewall_group(context, fwg_db, fwg)`. -/
def set_ports_for_firewall_group (db : DB) (fwg_id : String)
    (port_id_list : List String) : Except FwErr DB :=
  if port_id_list.isEmpty then .ok db
  else set_ports_loop fwg_id db [] port_id_list

/-- The `firewall_group` dict of the default-group creation path (all keys
present, as built by `_ensure_default_firewall_group`). -/
structure GroupCreate where
  tenant_id : String
  name : String
  description : String
  ingress_firewall_policy_id : Option String
  egress_firewall_policy_id : Option String
  admin_state_up : Bool
  shared : Bool
  ports : List String
  deriving DecidableEq, Repr

/-- `_create_firewall_group(context, firewall_group, status, default_fwg=
True)`: the default-group branch re-checks `_get_default_fwg_id` and — when
a default already exists — executes `return self.get_firewall_group(
default_fwg_id)`, a call missing its `context` argument, i.e. a `TypeError`
at run time; otherwise it validates the policy references, inserts the
group row and binds its ports. -/
def create_firewall_group_default (db : DB) (newId : String)
    (fwg : GroupCreate) (status : String) : Except FwErr (DB × String) :=
  match get_default_fwg_id db fwg.tenant_id with
  | some _ => .error .TypeError
  | none =>
    match validate_tenant_for_fwg_policies db.policies
        (some fwg.ingress_firewall_policy_id)
        (some fwg.egress_firewall_policy_id) fwg.tenant_id with
    | .error e => .error e
    | .ok _ =>
      let fwg_db : FirewallGroup := {
        id := newId,
        tenant_id := fwg.tenant_id,
        name := fwg.name,
        description := fwg.description,
        ingress_firewall_policy_id := fwg.ingress_firewall_policy_id,
        egress_firewall_policy_id := fwg.egress_firewall_policy_id,
        admin_state_up := fwg.admin_state_up,
        status := status,
        shared := fwg.shared }
      let db' := { db with groups := fwg_db :: db.groups }
      match set_ports_for_firewall_group db' newId fwg.ports with
      | .error e => .error e
      | .ok db'' => .ok (db'', newId)

/-- The fresh uuids consumed by one bootstrap attempt (four rules, two
policies, one group). -/
structure IdSupply where
  in_ipv4 : String
  in_ipv6 : String
  eg_ipv4 : String
  eg_ipv6 : String
  ingress_fwp : String
  egress_fwp : String
  fwg : String
  deriving DecidableEq, Repr

/-- `_ensure_default_firewall_group(context, tenant_id)`.

Concurrency is modelled with two database snapshots: every read of the
attempting transaction sees `db0` (its consistent snapshot, threaded
through its own uncommitted writes), while the final
`session.add(DefaultFirewallGroup(...))` is decided against `db1`, the
committed state at insert time — when a concurrent bootstrap has committed
a marker for the same project in between, the `project_id` primary key
makes the insert fail with `DBDuplicateEntry`.  A sequential run is the
special case `db1 = db0`.  On that specific conflict the operation discards
its work and re-reads `_get_default_fwg_id` against the committed state;
any other error propagates. -/
def ensure_default_firewall_group (db0 db1 : DB) (tenant_id : String)
    (ids : IdSupply) : Except FwErr (Option String × DB) :=
  match get_default_fwg_id db0 tenant_id with
  | some e => .ok (some e, db1)
  | none =>
    let attempt : Except FwErr (String × DB) :=
      match create_default_firewall_rules db0 tenant_id
          ⟨ids.in_ipv4, ids.in_ipv6, ids.eg_ipv4, ids.eg_ipv6⟩ with
      | .error e => .error e
      | .ok db =>
        match create_default_firewall_policy db ids.ingress_fwp tenant_id true
            [ids.in_ipv4, ids.in_ipv6] "Ingress firewall policy" with
        | .error e => .error e
        | .ok (db, ingress_fwp_db) =>
          match create_default_firewall_policy db ids.egress_fwp tenant_id
              false [ids.eg_ipv4, ids.eg_ipv6] "Egress firewall policy" with
          | .error e => .error e
          | .ok (db, egress_fwp_db) =>
            match create_firewall_group_default db ids.fwg {
                tenant_id := tenant_id,
                name := DEFAULT_FWG,
                description := "Default firewall group",
                ingress_firewall_policy_id := some ingress_fwp_db.id,
                egress_firewall_policy_id := some egress_fwp_db.id,
                admin_state_up := true,
                shared := false,
                ports := [] } STATUS_INACTIVE with
            | .error e => .error e
            | .ok (db, fwg_id) =>
              if marker_exists db1 tenant_id then
                .error .DBDuplicateEntry
              else
                .ok (fwg_id, { db with default_groups :=
                  ⟨tenant_id, fwg_id⟩ :: db.default_groups })
    match attempt with
    | .ok (fwg_id, db) => .ok (some fwg_id, db)
    | .error .DBDuplicateEntry => .ok (get_default_fwg_id db1 tenant_id, db1)
    | .error e => .error e

/-- `get_firewall_group(context, id)` / `_get_firewall_group`: lookup by id
or `FirewallGroupNotFound`. -/
def get_firewall_group (db : DB) (id : String) : Except FwErr FirewallGroup :=
  match db.groups.find? (fun g => g.id == id) with
  | none => .error (.FirewallGroupNotFound id)
  | some fwg => .ok fwg

/-- The `firewall_group` dict of `update_firewall_group` (outer `Option` =
key present). -/
structure GroupUpdate where
  name : Option String := none
  description : Option String := none
  ingress_firewall_policy_id : Option (Option String) := none
  egress_firewall_policy_id : Option (Option String) := none
  admin_state_up : Option Bool := none
  shared : Option Bool := none
  status : Option String := none
  ports : Option (List String) := none
  deriving DecidableEq, Repr

/-- `_delete_ports_in_firewall_group(context, firewall_group_id)`. -/
def delete_ports_in_firewall_group (db : DB) (firewall_group_id : String) : DB :=
  { db with group_ports :=
      db.group_ports.filter (fun b => b.firewall_group_id != firewall_group_id) }

/-- `update_firewall_group(context, id, firewall_group)`.  Mirrors the
source: the update dict must not use the reserved default name; the group
is fetched (`FirewallGroupNotFound` for an unknown id); unless an
administrator is moving the group to `PENDING_DELETE`, the stored group must
not be the default one; the policy references are validated; a present
`ports` key replaces all bindings; finally the remaining keys are applied
to the row. -/
def update_firewall_group (is_admin : Bool) (db : DB) (id : String)
    (fwg : GroupUpdate) : Except FwErr (DB × FirewallGroup) :=
  if fwg.name.getD "" == DEFAULT_FWG then
    .error (.FirewallDefaultParameterExists "Firewall Group"
      (fwg.name.getD ""))
  else
    match get_firewall_group db id with
    | .error e => .error e
    | .ok fwg_db =>
      match ((if !is_admin || fwg.status.getD "" != STATUS_PENDING_DELETE then
          if fwg_db.name == DEFAULT_FWG then
            .error (.FirewallDefaultObjectUpdateRestricted fwg_db.id)
          else .ok ()
        else .ok ()) : Except FwErr Unit) with
      | .error e => .error e
      | .ok _ =>
        match validate_tenant_for_fwg_policies db.policies
            fwg.ingress_firewall_policy_id fwg.egress_firewall_policy_id
            fwg_db.tenant_id with
        | .error e => .error e
        | .ok _ =>
          match (match fwg.ports with
            | some port_id_list =>
              set_ports_for_firewall_group
                (delete_ports_in_firewall_group db id) id port_id_list
            | none => .ok db) with
          | .error e => .error e
          | .ok db' =>
            let fwg_db' : FirewallGroup := {
              id := fwg_db.id,
              tenant_id := fwg_db.tenant_id,
              name := fwg.name.getD fwg_db.name,
              description := fwg.description.getD fwg_db.description,
              ingress_firewall_policy_id :=
                match fwg.ingress_firewall_policy_id with
                | some v => v
                | none => fwg_db.ingress_firewall_policy_id,
              egress_firewall_policy_id :=
                match fwg.egress_firewall_policy_id with
                | some v => v
                | none => fwg_db.egress_firewall_policy_id,
              admin_state_up := fwg.admin_state_up.getD fwg_db.admin_state_up,
              status := fwg.status.getD fwg_db.status,
              shared := fwg.shared.getD fwg_db.shared }
            let groups' :=
              db'.groups.map (fun g => if g.id == id then fwg_db' else g)
            .ok ({ db' with groups := groups' }, fwg_db')

/-- `delete_firewall_policy(context, id)` (the id may be `None` when called
from the default-group cascade, in which case the lookup fails): refuse
while any group references the policy, otherwise drop the associations and
the row. -/
def delete_firewall_policy (db : DB) (oid : Option String) : Except FwErr DB :=
  match oid.bind (fun i => db.policies.find? (fun p => p.id == i)) with
  | none => .error .FirewallPolicyNotFound
  | some fwp_db =>
    if db.groups.any (fun g =>
        g.ingress_firewall_policy_id == some fwp_db.id) then
      .error (.FirewallPolicyInUse fwp_db.id)
    else if db.groups.any (fun g =>
        g.egress_firewall_policy_id == some fwp_db.id) then
      .error (.FirewallPolicyInUse fwp_db.id)
    else
      .ok { db with policies :=
        db.policies.filter (fun p => p.id != fwp_db.id) }

/-- Drop a group row; the `ondelete="CASCADE"` foreign keys also remove its
port bindings and any marker row pointing at it. -/
def delete_group_row (db : DB) (id : String) : DB :=
  { db with
    groups := db.groups.filter (fun g => g.id != id),
    group_ports := db.group_ports.filter (fun b => b.firewall_group_id != id),
    default_groups :=
      db.default_groups.filter (fun r => r.firewall_group_id != id) }

/-- `delete_firewall_group(context, id)`: an unknown id is caught
(`FirewallGroupNotFound` → plain `return`, a silent no-op); the default
group may only be deleted by an administrator and cascades into its two
policies; any other group row is deleted outright. -/
def delete_firewall_group (is_admin : Bool) (db : DB) (id : String) :
    Except FwErr DB :=
  match db.groups.find? (fun g => g.id == id) with
  | none => .ok db
  | some fwg_db =>
    if fwg_db.name == DEFAULT_FWG then
      if is_admin then
        let db1 := delete_group_row db id
        match delete_firewall_policy db1 fwg_db.ingress_firewall_policy_id with
        | .error e => .error e
        | .ok db2 =>
          match delete_firewall_policy db2 fwg_db.egress_firewall_policy_id with
          | .error e => .error e
          | .ok db3 => .ok db3
      else
        .error .FirewallGroupCannotRemoveDefault
    else
      .ok (delete_group_row db id)

/-- `_set_rules_for_policy` only ever stores an empty association list or a
freshly `reorder()`ed one, so every successful bulk replacement leaves dense
positions. -/
theorem set_rules_for_policy_ok_dense (rules : List FirewallRuleV2)
    (fwp_db : FirewallPolicy) (fwp : PolicyUpdate) (p : FirewallPolicy)
    (h : set_rules_for_policy rules fwp_db fwp = .ok p) : positionsDense p := by
  simp only [set_rules_for_policy] at h
  split at h
  · simp only [Except.ok.injEq] at h
    subst h
    unfold positionsDense
    rfl
  · split at h
    · exact absurd h (by simp)
    · split at h
      · simp only [Except.ok.injEq] at h
        subst h
        unfold positionsDense reorder
        simp [reorderFrom_map_position, reorderFrom_length]
      · exact absurd h (by simp)

/-- Every successful run of the transactional tail of `insert_rule` ends in
`_process_rule_for_policy`, hence with dense positions. -/
theorem insert_rule_locked_ok_dense (rules : List FirewallRuleV2)
    (fwp_db : FirewallPolicy) (rid : String) (ref : Option String) (ib : Bool)
    (p : FirewallPolicy) (h : insert_rule_locked rules fwp_db rid ref ib = .ok p) :
    positionsDense p := by
  unfold insert_rule_locked at h
  repeat' split at h
  all_goals simp only [reduceCtorEq, Except.ok.injEq] at h
  all_goals (subst h; exact process_rule_for_policy_dense ..)

/-- C1: after every successful `insert_rule`, `remove_rule` or bulk
rule-list replacement (`update_firewall_policy` with a `firewall_rules`
key), the stored positions of the policy's rule associations are exactly
the dense sequence `1..n` for its `n` associations, with no gaps or
duplicates, in the externally observed (position) order. -/
theorem claim_C1_positions_dense (rules : List FirewallRuleV2)
    (groups : List FirewallGroup) (fwp_db : FirewallPolicy)
    (rule_info : RuleInfo) (fwp : PolicyUpdate) (p q r : FirewallPolicy) :
    (insert_rule rules fwp_db rule_info = .ok p → positionsDense p) ∧
    (remove_rule rules fwp_db rule_info = .ok q → positionsDense q) ∧
    (fwp.firewall_rules.isSome →
      update_firewall_policy rules groups fwp_db fwp = .ok r →
        positionsDense r) := by
  refine ⟨fun h => ?_, fun h => ?_, fun hk h => ?_⟩
  · unfold insert_rule at h
    repeat' split at h
    all_goals first
      | exact insert_rule_locked_ok_dense _ _ _ _ _ _ h
      | simp only [reduceCtorEq] at h
  · unfold remove_rule at h
    repeat' split at h
    all_goals first
      | simp only [reduceCtorEq] at h
      | (simp only [Except.ok.injEq] at h
         subst h
         exact process_rule_for_policy_dense ..)
  · unfold update_firewall_policy at h
    split at h
    · simp only [reduceCtorEq] at h
    · split at h
      · simp only [reduceCtorEq] at h
      · split at h
        · simp only [reduceCtorEq] at h
        · split at h
          · simp only [reduceCtorEq] at h
          · next fwp_db' heq =>
            simp only [Except.ok.injEq] at h
            subst h
            rw [if_pos hk] at heq
            have hd := set_rules_for_policy_ok_dense rules fwp_db fwp fwp_db' heq
            unfold positionsDense at hd ⊢
            simpa using hd

/-- Concrete witness fixture: a shared TCP rule of project A. -/
def ruleW : FirewallRuleV2 := {
  id := "r1", tenant_id := "A", name := "rule one", description := "",
  shared := true, protocol := some "tcp", ip_version := some 4,
  source_ip_address := none, destination_ip_address := none,
  source_port_range_min := none, source_port_range_max := none,
  destination_port_range_min := some 80, destination_port_range_max := some 80,
  action := "allow", enabled := true }

/-- Concrete witness fixture: the rules table with three shared rules. -/
def rulesW : List FirewallRuleV2 :=
  [ruleW, { ruleW with id := "r2" }, { ruleW with id := "r3" }]

/-- Concrete witness fixture: a policy of project A holding rules r2, r3. -/
def policyW : FirewallPolicy := {
  id := "p1", tenant_id := "A", name := "policy one", description := "",
  audited := true, shared := false,
  rule_associations := [⟨"r2", 1⟩, ⟨"r3", 2⟩] }

/-- Expected state of `policyW` after inserting r1 at the front. -/
def policyW_ins : FirewallPolicy := { policyW with
  audited := false
  rule_associations := [⟨"r1", 1⟩, ⟨"r2", 2⟩, ⟨"r3", 3⟩] }

/-- Expected state of `policyW` after removing r2. -/
def policyW_rem : FirewallPolicy := { policyW with
  audited := false
  rule_associations := [⟨"r3", 1⟩] }

/-- Expected state of `policyW` after the bulk replacement `[r3, r2]`. -/
def policyW_set : FirewallPolicy := { policyW with
  audited := false
  rule_associations := [⟨"r3", 1⟩, ⟨"r2", 2⟩] }

theorem claim_C1_witness :
    positionsDense policyW_ins ∧ positionsDense policyW_rem ∧
      positionsDense policyW_set :=
  ⟨(claim_C1_positions_dense rulesW [] policyW ⟨some "r1", none, none⟩ {}
      policyW_ins policyW_rem policyW_set).1 rfl,
   (claim_C1_positions_dense rulesW [] policyW ⟨some "r2", none, none⟩ {}
      policyW_ins policyW_rem policyW_set).2.1 rfl,
   (claim_C1_positions_dense rulesW [] policyW ⟨some "r1", none, none⟩
      { firewall_rules := some ["r3", "r2"] }
      policyW_ins policyW_rem policyW_set).2.2 rfl rfl⟩

/-- C5: inserting a rule that is already associated with the policy fails
with `FirewallRuleAlreadyAssociated`.  The check runs before the
transactional tail (before any lookup of the rule row, reference
resolution or mutation — the statement holds for *every* rules table and
reference request), and the error return means the transaction unwinds
with the policy's membership, order and positions untouched. -/
theorem claim_C5_already_associated (rules : List FirewallRuleV2)
    (fwp_db : FirewallPolicy) (rule_info : RuleInfo) (rid : String)
    (h1 : rule_info.firewall_rule_id = some rid)
    (h2 : ∃ a ∈ fwp_db.rule_associations, a.firewall_rule_id = rid) :
    insert_rule rules fwp_db rule_info =
      .error (.FirewallRuleAlreadyAssociated rid fwp_db.id) := by
  have hs : (fwp_db.rule_associations.find?
      (fun a => a.firewall_rule_id == rid)).isSome := by
    rw [List.find?_isSome]
    obtain ⟨a, ha, hid⟩ := h2
    exact ⟨a, ha, by simp [hid]⟩
  unfold insert_rule
  rw [h1]
  simp [hs]

theorem claim_C5_witness :
    insert_rule rulesW policyW ⟨some "r2", some "r3", none⟩ =
      .error (.FirewallRuleAlreadyAssociated "r2" "p1") :=
  claim_C5_already_associated rulesW policyW ⟨some "r2", some "r3", none⟩ "r2"
    rfl ⟨⟨"r2", 1⟩, by decide, rfl⟩

theorem pyInsert_eq_append (a : α) :
    ∀ (i : Nat) (l : List α), i ≤ l.length →
      pyInsert i a l = l.take i ++ a :: l.drop i := by
  intro i l
  induction l generalizing i with
  | nil =>
    intro _
    simp [pyInsert]
  | cons x xs ih =>
    intro h
    cases i with
    | zero => rfl
    | succ n =>
      simp only [pyInsert, List.take_succ_cons, List.drop_succ_cons,
        List.cons_append, List.cons.injEq, true_and]
      exact ih n (by simpa using h)

theorem reorderFrom_getElem? (s : Nat) (l : List FirewallPolicyRuleAssociation)
    (i : Nat) :
    (reorderFrom s l)[i]? =
      l[i]?.map (fun a => ⟨a.firewall_rule_id, s + i⟩) := by
  induction l generalizing s i with
  | nil => simp [reorderFrom]
  | cons a l ih =>
    cases i with
    | zero => simp [reorderFrom]
    | succ n =>
      simp only [reorderFrom, List.getElem?_cons_succ, ih]
      have : s + 1 + n = s + (n + 1) := by omega
      rw [this]

/-- Any association of a dense policy sits at a 1-based position between 1
and the number of associations. -/
theorem position_mem_bounds (fwp_db : FirewallPolicy)
    (a : FirewallPolicyRuleAssociation) (ha : a ∈ fwp_db.rule_associations)
    (hdense : positionsDense fwp_db) :
    1 ≤ a.position ∧ a.position ≤ fwp_db.rule_associations.length := by
  have hm : a.position ∈ fwp_db.rule_associations.map (·.position) :=
    List.mem_map_of_mem _ ha
  rw [hdense, List.mem_range'] at hm
  obtain ⟨i, hi, he⟩ := hm
  omega

/-- `_process_rule_for_policy` with a 1-based position `k ≤ n + 1`: the new
rule lands at list index `k - 1` with stored position `k`, and every rule
previously at or past that index is shifted one slot (and renumbered). -/
theorem process_insert_spec (fwp_db : FirewallPolicy) (rid : String) (k : Nat)
    (hk1 : 1 ≤ k) (hk2 : k ≤ fwp_db.rule_associations.length + 1) :
    firewall_rules_of (process_rule_for_policy fwp_db rid (some k) none) =
      (firewall_rules_of fwp_db).take (k - 1) ++
        rid :: (firewall_rules_of fwp_db).drop (k - 1) ∧
    (process_rule_for_policy fwp_db rid (some k) none).rule_associations[k-1]? =
      some ⟨rid, k⟩ := by
  have hle : k - 1 ≤ fwp_db.rule_associations.length := by omega
  have htr : truthyNat (some k) = true := by
    simp only [truthyNat, ne_eq, bne_iff_ne]
    omega
  unfold process_rule_for_policy
  rw [htr]
  simp only [if_true, Option.getD_some]
  rw [pyInsert_eq_append _ _ _ hle]
  constructor
  · unfold firewall_rules_of reorder
    rw [reorderFrom_map_rule_id]
    simp [List.map_take, List.map_drop]
  · unfold reorder
    rw [reorderFrom_getElem?]
    have hlen : (fwp_db.rule_associations.take (k-1)).length = k - 1 := by
      simp [List.length_take]
      omega
    rw [List.getElem?_append_right (by omega : (fwp_db.rule_associations.take (k-1)).length ≤ k - 1)]
    rw [hlen]
    simp only [Nat.sub_self, List.getElem?_cons_zero, Option.map_some]
    have : 1 + (k - 1) = k := by omega
    rw [this]
    simp

/-- When the already-associated check has passed, `insert_rule` reduces to
`insert_rule_locked` on the resolved reference. -/
theorem insert_rule_resolved (rules : List FirewallRuleV2)
    (fwp_db : FirewallPolicy) (rule_info : RuleInfo) (rid : String)
    (hfid : rule_info.firewall_rule_id = some rid)
    (hnot : ∀ a ∈ fwp_db.rule_associations, a.firewall_rule_id ≠ rid) :
    insert_rule rules fwp_db rule_info =
      (if truthyStr rule_info.insert_before then
        insert_rule_locked rules fwp_db rid rule_info.insert_before true
      else if rule_info.insert_after.isSome then
        insert_rule_locked rules fwp_db rid rule_info.insert_after false
      else
        insert_rule_locked rules fwp_db rid rule_info.insert_before true) := by
  have hfn : fwp_db.rule_associations.find?
      (fun a => a.firewall_rule_id == rid) = none := by
    rw [List.find?_eq_none]
    intro a ha
    simpa using hnot a ha
  simp only [insert_rule, hfid, hfn, Option.isSome_none, Bool.false_eq_true,
    if_false]

/-- The transactional tail with a falsy reference inserts at position 1. -/
theorem insert_rule_locked_front (rules : List FirewallRuleV2)
    (fwp_db : FirewallPolicy) (rid : String) (ref : Option String) (ib : Bool)
    (fwr : FirewallRuleV2) (href : truthyStr ref = false)
    (hfind : rules.find? (fun r => r.id == rid) = some fwr)
    (hok : fwr.shared = true ∨ fwr.tenant_id = fwp_db.tenant_id) :
    insert_rule_locked rules fwp_db rid ref ib =
      .ok (process_rule_for_policy fwp_db rid (some 1) none) := by
  have hc : (!fwr.shared && fwr.tenant_id != fwp_db.tenant_id) = false := by
    rcases hok with h | h <;> simp [h]
  simp only [insert_rule_locked, hfind, hc, href, Bool.false_eq_true, if_false]

/-- The transactional tail with a truthy reference found at position `k`
inserts at `k` (before) or `k + 1` (after). -/
theorem insert_rule_locked_ref (rules : List FirewallRuleV2)
    (fwp_db : FirewallPolicy) (rid q : String) (k : Nat) (ib : Bool)
    (fwr : FirewallRuleV2) (hq : ¬q = "")
    (hfind : rules.find? (fun r => r.id == rid) = some fwr)
    (hok : fwr.shared = true ∨ fwr.tenant_id = fwp_db.tenant_id)
    (hassoc : fwp_db.rule_associations.find?
      (fun a => a.firewall_rule_id == q) = some ⟨q, k⟩) :
    insert_rule_locked rules fwp_db rid (some q) ib =
      .ok (process_rule_for_policy fwp_db rid
        (some (if ib then k else k + 1)) none) := by
  have hc : (!fwr.shared && fwr.tenant_id != fwp_db.tenant_id) = false := by
    rcases hok with h | h <;> simp [h]
  have ht : truthyStr (some q) = true := by
    have he : q.isEmpty = false := by
      rw [← Bool.not_eq_true, String.isEmpty_iff]
      exact hq
    simp [truthyStr, he]
  simp only [insert_rule_locked, hfind, hc, ht, Bool.false_eq_true, if_false,
    if_true, Option.getD_some, hassoc]

theorem truthyStr_some_ne (q : String) (hq : ¬q = "") :
    truthyStr (some q) = true := by
  have he : q.isEmpty = false := by
    rw [← Bool.not_eq_true, String.isEmpty_iff]
    exact hq
  simp [truthyStr, he]

/-- C2: for every successful `insert_rule` call on a policy with dense
positions, naming an existing rule `rid` that is visible to the policy and
not yet associated with it:
* with no truthy reference rule the new rule ends at position 1 (front),
  whatever the `insert_after` field holds;
* with reference rule `q` at 1-based position `k`, inserting before puts
  the new rule at position `k` and inserting after at position `k + 1`,
  shifting every rule previously at or past that slot up by one. -/
theorem claim_C2_insert_semantics (rules : List FirewallRuleV2)
    (fwp_db : FirewallPolicy) (rule_info : RuleInfo) (rid q : String)
    (k : Nat) (fwr : FirewallRuleV2)
    (hfid : rule_info.firewall_rule_id = some rid)
    (hnot : ∀ a ∈ fwp_db.rule_associations, a.firewall_rule_id ≠ rid)
    (hfind : rules.find? (fun r => r.id == rid) = some fwr)
    (hok : fwr.shared = true ∨ fwr.tenant_id = fwp_db.tenant_id)
    (hdense : positionsDense fwp_db) :
    ((truthyStr rule_info.insert_before = false ∧
      truthyStr rule_info.insert_after = false) →
      ∃ p', insert_rule rules fwp_db rule_info = .ok p' ∧
        firewall_rules_of p' = rid :: firewall_rules_of fwp_db ∧
        p'.rule_associations.head? = some ⟨rid, 1⟩) ∧
    ((rule_info.insert_before = some q ∧ ¬q = "" ∧
      fwp_db.rule_associations.find?
        (fun a => a.firewall_rule_id == q) = some ⟨q, k⟩) →
      ∃ p', insert_rule rules fwp_db rule_info = .ok p' ∧
        firewall_rules_of p' = (firewall_rules_of fwp_db).take (k - 1) ++
          rid :: (firewall_rules_of fwp_db).drop (k - 1) ∧
        p'.rule_associations[k-1]? = some ⟨rid, k⟩) ∧
    ((truthyStr rule_info.insert_before = false ∧
      rule_info.insert_after = some q ∧ ¬q = "" ∧
      fwp_db.rule_associations.find?
        (fun a => a.firewall_rule_id == q) = some ⟨q, k⟩) →
      ∃ p', insert_rule rules fwp_db rule_info = .ok p' ∧
        firewall_rules_of p' = (firewall_rules_of fwp_db).take k ++
          rid :: (firewall_rules_of fwp_db).drop k ∧
        p'.rule_associations[k]? = some ⟨rid, k + 1⟩) := by
  refine ⟨fun ⟨hb, ha⟩ => ?_, fun ⟨hb, hq, hassoc⟩ => ?_,
    fun ⟨hb, ha, hq, hassoc⟩ => ?_⟩
  · rw [insert_rule_resolved rules fwp_db rule_info rid hfid hnot, hb]
    simp only [Bool.false_eq_true, if_false]
    have hspec := process_insert_spec fwp_db rid 1 (by omega) (by omega)
    by_cases hcase : rule_info.insert_after.isSome
    · rw [if_pos hcase,
        insert_rule_locked_front rules fwp_db rid _ false fwr ha hfind hok]
      refine ⟨_, rfl, ?_, ?_⟩
      · simpa using hspec.1
      · rw [List.head?_eq_getElem?]
        simpa using hspec.2
    · rw [if_neg hcase,
        insert_rule_locked_front rules fwp_db rid _ true fwr hb hfind hok]
      refine ⟨_, rfl, ?_, ?_⟩
      · simpa using hspec.1
      · rw [List.head?_eq_getElem?]
        simpa using hspec.2
  · have hbounds : 1 ≤ k ∧ k ≤ fwp_db.rule_associations.length :=
      position_mem_bounds fwp_db ⟨q, k⟩
        (List.mem_of_find?_eq_some hassoc) hdense
    rw [insert_rule_resolved rules fwp_db rule_info rid hfid hnot, hb,
      truthyStr_some_ne q hq]
    simp only [if_true]
    rw [insert_rule_locked_ref rules fwp_db rid q k true fwr hq hfind hok hassoc]
    simp only [if_true]
    have hspec := process_insert_spec fwp_db rid k hbounds.1 (by omega)
    exact ⟨_, rfl, hspec.1, hspec.2⟩
  · have hbounds : 1 ≤ k ∧ k ≤ fwp_db.rule_associations.length :=
      position_mem_bounds fwp_db ⟨q, k⟩
        (List.mem_of_find?_eq_some hassoc) hdense
    rw [insert_rule_resolved rules fwp_db rule_info rid hfid hnot, hb]
    simp only [Bool.false_eq_true, if_false]
    rw [if_pos (by simp [ha] : rule_info.insert_after.isSome = true), ha]
    rw [insert_rule_locked_ref rules fwp_db rid q k false fwr hq hfind hok hassoc]
    simp only [Bool.false_eq_true, if_false]
    have hspec := process_insert_spec fwp_db rid (k + 1) (by omega) (by omega)
    refine ⟨_, rfl, ?_, ?_⟩
    · simpa using hspec.1
    · simpa using hspec.2

theorem claim_C2_witness :
    (∃ p', insert_rule rulesW policyW ⟨some "r1", none, none⟩ = .ok p' ∧
      firewall_rules_of p' = "r1" :: firewall_rules_of policyW ∧
      p'.rule_associations.head? = some ⟨"r1", 1⟩) ∧
    (∃ p', insert_rule rulesW policyW ⟨some "r1", some "r3", none⟩ = .ok p' ∧
      firewall_rules_of p' = (firewall_rules_of policyW).take 1 ++
        "r1" :: (firewall_rules_of policyW).drop 1 ∧
      p'.rule_associations[1]? = some ⟨"r1", 2⟩) ∧
    (∃ p', insert_rule rulesW policyW ⟨some "r1", none, some "r2"⟩ = .ok p' ∧
      firewall_rules_of p' = (firewall_rules_of policyW).take 1 ++
        "r1" :: (firewall_rules_of policyW).drop 1 ∧
      p'.rule_associations[1]? = some ⟨"r1", 2⟩) :=
  ⟨(claim_C2_insert_semantics rulesW policyW ⟨some "r1", none, none⟩ "r1" "r3"
      2 ruleW rfl (by decide) rfl (Or.inl rfl) (by decide)).1 ⟨rfl, rfl⟩,
   (claim_C2_insert_semantics rulesW policyW ⟨some "r1", some "r3", none⟩ "r1"
      "r3" 2 ruleW rfl (by decide) rfl (Or.inl rfl) (by decide)).2.1
      ⟨rfl, by decide, rfl⟩,
   (claim_C2_insert_semantics rulesW policyW ⟨some "r1", none, some "r2"⟩ "r1"
      "r2" 1 ruleW rfl (by decide) rfl (Or.inl rfl) (by decide)).2.2
      ⟨rfl, rfl, by decide, rfl⟩⟩

/-- `_check_rules_for_policy_is_valid` on an unshared policy whose update
carries no `shared` key: if every candidate rule exists and some candidate
is a private rule of a different project, validation fails with
`FirewallRuleConflict`. -/
theorem check_rules_conflict (rules : List FirewallRuleV2) (fwp : PolicyUpdate)
    (fwp_db : FirewallPolicy) (hsh : fwp.shared = none)
    (hpsh : fwp_db.shared = false) :
    ∀ l : List String,
      (∀ rid ∈ l, ∃ r, rules.find? (fun x => x.id == rid) = some r) →
      (∃ rid ∈ l, ∃ r, rules.find? (fun x => x.id == rid) = some r ∧
        r.shared = false ∧ fwp_db.tenant_id ≠ r.tenant_id) →
      ∃ rid t, check_rules_for_policy_is_valid rules fwp fwp_db l =
        .error (.FirewallRuleConflict rid t) := by
  intro l
  induction l with
  | nil =>
    intro _ hbad
    simp at hbad
  | cons x rest ih =>
    intro hex hbad
    obtain ⟨r, hr⟩ := hex x (List.mem_cons_self x rest)
    by_cases hcond : (!r.shared && fwp_db.tenant_id != r.tenant_id) = true
    · refine ⟨x, r.tenant_id, ?_⟩
      unfold check_rules_for_policy_is_valid
      rw [hr, hsh, hpsh]
      simp only [Bool.false_and, Bool.false_eq_true, if_false, hcond, if_true]
    · have hstep : check_rules_for_policy_is_valid rules fwp fwp_db (x :: rest) =
          check_rules_for_policy_is_valid rules fwp fwp_db rest := by
        unfold check_rules_for_policy_is_valid
        rw [hr, hsh, hpsh]
        simp only [Bool.false_and, Bool.false_eq_true, if_false, hcond]
        rw [check_rules_for_policy_is_valid.eq_def]
        simp only [hsh, hpsh, Bool.false_and, Bool.false_eq_true, if_false]
      rw [hstep]
      apply ih (fun rid hm => hex rid (List.mem_cons_of_mem x hm))
      obtain ⟨rid, hmem, r', hr', hshr', hten'⟩ := hbad
      rcases List.mem_cons.mp hmem with heq | hmem'
      · subst heq
        rw [hr] at hr'
        injection hr' with hr'
        subst hr'
        exact absurd (by simp [hshr', bne_iff_ne, hten']) hcond
      · exact ⟨rid, hmem', r', hr', hshr', hten'⟩

/-- C3: a bulk rule-list replacement through `update_firewall_policy`
validates the candidate list before touching any association.  For an
unshared policy (and an update without a `shared` key) whose candidate list
contains a private rule of a different project, the operation fails with
the sharing/conflict error `FirewallRuleConflict`; the error unwinds the
transaction, so the policy's association list is unchanged (in this model
an `.error` result carries no mutated state). -/
theorem claim_C3_bulk_validation (rules : List FirewallRuleV2)
    (groups : List FirewallGroup) (fwp_db : FirewallPolicy)
    (fwp : PolicyUpdate) (l : List String)
    (hnd1 : fwp_db.name ≠ DEFAULT_FWP_INGRESS)
    (hnd2 : fwp_db.name ≠ DEFAULT_FWP_EGRESS)
    (hsh : fwp.shared = none) (hpsh : fwp_db.shared = false)
    (hfr : fwp.firewall_rules = some l)
    (hex : ∀ rid ∈ l, ∃ r, rules.find? (fun x => x.id == rid) = some r)
    (hbad : ∃ rid ∈ l, ∃ r, rules.find? (fun x => x.id == rid) = some r ∧
      r.shared = false ∧ fwp_db.tenant_id ≠ r.tenant_id) :
    ∃ rid t, update_firewall_policy rules groups fwp_db fwp =
      .error (.FirewallRuleConflict rid t) := by
  obtain ⟨rid, t, hchk⟩ := check_rules_conflict rules fwp fwp_db hsh hpsh l hex hbad
  have hne : l.isEmpty = false := by
    obtain ⟨rid0, hmem, _⟩ := hbad
    cases l with
    | nil => cases hmem
    | cons a as => rfl
  have hset : set_rules_for_policy rules fwp_db fwp =
      .error (.FirewallRuleConflict rid t) := by
    simp only [set_rules_for_policy, hfr, Option.getD_some, hne,
      Bool.false_eq_true, if_false, hchk]
  have h1 : ensure_policy_not_default fwp_db = .ok () := by
    simp [ensure_policy_not_default, hnd1, hnd2]
  refine ⟨rid, t, ?_⟩
  simp only [update_firewall_policy, h1, hsh, hfr, hset, Option.getD_none,
    Option.isSome_none, Option.isSome_some, Bool.not_true, Bool.false_and,
    Bool.false_eq_true, if_false, if_true]

/-- Concrete witness fixture: a private rule of project B. -/
def ruleB : FirewallRuleV2 :=
  { ruleW with id := "rb", tenant_id := "B", shared := false }

/-- Concrete witness fixture: the rules table including `ruleB`. -/
def rulesW2 : List FirewallRuleV2 := ruleB :: rulesW

/-- Concrete witness fixture: `policyW` with an empty association list. -/
def policyW_empty : FirewallPolicy := { policyW with rule_associations := [] }

theorem claim_C3_witness :
    ∃ rid t, update_firewall_policy rulesW2 [] policyW_empty
      { firewall_rules := some ["rb"] } =
        .error (.FirewallRuleConflict rid t) :=
  claim_C3_bulk_validation rulesW2 [] policyW_empty
    { firewall_rules := some ["rb"] } ["rb"] (by decide) (by decide) rfl rfl rfl
    (by
      intro rid hm
      simp only [List.mem_singleton] at hm
      subst hm
      exact ⟨ruleB, rfl⟩)
    ⟨"rb", by simp, ruleB, rfl, rfl, by decide⟩

/-- When the stored policy is shared, the loop of
`_check_if_rules_shared_for_policy_shared` never raises (whatever the
rules' own flags and owners are), provided every associated rule row
exists. -/
theorem check_if_rules_shared_loop_ok (rules : List FirewallRuleV2)
    (fwp_db : FirewallPolicy) (hsh : fwp_db.shared = true) :
    ∀ l : List FirewallPolicyRuleAssociation,
      (∀ a ∈ l, ∃ r, rules.find?
        (fun x => x.id == a.firewall_rule_id) = some r) →
      check_if_rules_shared_loop rules fwp_db l = .ok () := by
  intro l
  induction l with
  | nil => intro _; rfl
  | cons a rest ih =>
    intro hex
    obtain ⟨r, hr⟩ := hex a (List.mem_cons_self a rest)
    unfold check_if_rules_shared_loop
    rw [hr, hsh]
    simp only [Bool.not_true, Bool.false_eq_true, if_false]
    exact ih (fun b hb => hex b (List.mem_cons_of_mem a hb))

/-- C4 (amended): for an update that sets `shared` to true without a
`firewall_rules` key, on a non-default policy all of whose associated rule
rows exist, the transition fails iff the policy's *stored* `shared` flag is
false and it has at least one associated rule; the failure is
`FirewallPolicySharingConflict` naming the first associated rule.  The
rules' own `shared` flags and owners are never consulted
(`_check_if_rules_shared_for_policy_shared` tests `fwp_db['shared']`, not
the fetched rule row). -/
theorem claim_C4_shared_transition (rules : List FirewallRuleV2)
    (groups : List FirewallGroup) (fwp_db : FirewallPolicy) (fwp : PolicyUpdate)
    (hnd1 : fwp_db.name ≠ DEFAULT_FWP_INGRESS)
    (hnd2 : fwp_db.name ≠ DEFAULT_FWP_EGRESS)
    (hsh : fwp.shared = some true) (hfr : fwp.firewall_rules = none)
    (hex : ∀ a ∈ fwp_db.rule_associations, ∃ r, rules.find?
      (fun x => x.id == a.firewall_rule_id) = some r) :
    (∀ a l, fwp_db.shared = false → fwp_db.rule_associations = a :: l →
      update_firewall_policy rules groups fwp_db fwp =
        .error (.FirewallPolicySharingConflict a.firewall_rule_id fwp_db.id)) ∧
    ((fwp_db.shared = true ∨ fwp_db.rule_associations = []) →
      ∃ p', update_firewall_policy rules groups fwp_db fwp = .ok p') := by
  have h1 : ensure_policy_not_default fwp_db = .ok () := by
    simp [ensure_policy_not_default, hnd1, hnd2]
  constructor
  · intro a l hpsh hassoc
    obtain ⟨r, hr⟩ := hex a (by rw [hassoc]; exact List.mem_cons_self a l)
    have hrid : r.id = a.firewall_rule_id := by
      have := List.find?_some hr
      simpa using this
    have hchk : check_if_rules_shared_for_policy_shared rules fwp_db fwp =
        .error (.FirewallPolicySharingConflict a.firewall_rule_id fwp_db.id) := by
      unfold check_if_rules_shared_for_policy_shared
      rw [hsh, hassoc]
      unfold check_if_rules_shared_loop
      rw [hr, hpsh]
      simp [hrid]
    simp only [update_firewall_policy, h1, hsh, hfr, hchk, Option.getD_some,
      Option.isSome_some, Option.isNone_none, Bool.not_true, Bool.and_true,
      Bool.false_eq_true, if_false, if_true]
  · intro hcase
    have hchk : check_if_rules_shared_for_policy_shared rules fwp_db fwp =
        .ok () := by
      unfold check_if_rules_shared_for_policy_shared
      rw [hsh]
      simp only [Option.getD_some, if_true]
      rcases hcase with hpsh | hempty
      · exact check_if_rules_shared_loop_ok rules fwp_db hpsh _ hex
      · rw [hempty]; rfl
    refine ⟨{ fwp_db with
      name := fwp.name.getD fwp_db.name,
      description := fwp.description.getD fwp_db.description,
      shared := true,
      audited := fwp.audited.getD false }, ?_⟩
    simp [update_firewall_policy, h1, hsh, hfr, hchk]

/-- C4 counterexample: `policyW` is stored with `shared = false` and holds
only the *shared* rule r2 of its own project A, so the claim predicts the
transition to `shared = true` succeeds — but the code raises
`FirewallPolicySharingConflict`. -/
theorem claim_C4_counterexample :
    (rulesW.find? (fun x => x.id == "r2")).map (·.shared) = some true ∧
    (rulesW.find? (fun x => x.id == "r2")).map (·.tenant_id) =
      some policyW.tenant_id ∧
    update_firewall_policy rulesW [] policyW { shared := some true } =
      .error (.FirewallPolicySharingConflict "r2" "p1") := ⟨rfl, rfl, rfl⟩

theorem claim_C4_witness :
    update_firewall_policy rulesW [] { policyW with shared := true }
        { shared := some true } =
      .error (.FirewallPolicySharingConflict "r2" "p1") ∨
    ∃ p', update_firewall_policy rulesW [] { policyW with shared := true }
        { shared := some true } = .ok p' :=
  Or.inr ((claim_C4_shared_transition rulesW [] { policyW with shared := true }
    { shared := some true } (by decide) (by decide) rfl rfl
    (by
      intro a ha
      simp only [policyW, List.mem_cons, List.not_mem_nil, or_false] at ha
      rcases ha with h | h <;> subst h
      · exact ⟨{ ruleW with id := "r2" }, rfl⟩
      · exact ⟨{ ruleW with id := "r3" }, rfl⟩)).2 (Or.inl rfl))

/-- C10: every successful `update_firewall_policy` whose update mapping has
no `audited` key leaves the policy's `audited` flag false — the source
forces `fwp['audited'] = False` before `fwp_db.update(fwp)` on every path,
including name-only or description-only updates. -/
theorem claim_C10_audited_cleared (rules : List FirewallRuleV2)
    (groups : List FirewallGroup) (fwp_db : FirewallPolicy)
    (fwp : PolicyUpdate) (p' : FirewallPolicy)
    (hna : fwp.audited = none)
    (h : update_firewall_policy rules groups fwp_db fwp = .ok p') :
    p'.audited = false := by
  unfold update_firewall_policy at h
  split at h
  · simp only [reduceCtorEq] at h
  · split at h
    · simp only [reduceCtorEq] at h
    · split at h
      · simp only [reduceCtorEq] at h
      · split at h
        · simp only [reduceCtorEq] at h
        · simp only [Except.ok.injEq] at h
          subst h
          simp [hna]

/-- Expected state of `policyW` after a name-only update. -/
def policyW_renamed : FirewallPolicy :=
  { policyW with name := "renamed", audited := false }

theorem claim_C10_witness : policyW_renamed.audited = false :=
  claim_C10_audited_cleared rulesW [] policyW { name := some "renamed" }
    policyW_renamed rfl rfl


/-- The stored row produced by creating a TCP rule with destination port
`"80"` for project A. -/
def ruleC6 : FirewallRuleV2 := {
  id := "r6", tenant_id := "A", name := "web", description := "",
  shared := false, protocol := some "tcp", ip_version := some 4,
  source_ip_address := none, destination_ip_address := none,
  source_port_range_min := none, source_port_range_max := none,
  destination_port_range_min := some 80, destination_port_range_max := some 80,
  action := "allow", enabled := true }

/-- The create-request dict that produces `ruleC6`. -/
def ruleC6_create : RuleCreate := {
  tenant_id := "A", name := "web", description := "", shared := false,
  protocol := some "tcp", ip_version := some 4, source_ip_address := none,
  destination_ip_address := none, source_port := none,
  destination_port := some "80", action := "allow", enabled := true }

/-- The same request with the protocol left unset. -/
def ruleC6_create_noproto : RuleCreate := { ruleC6_create with
  name := "bad"
  protocol := none }

/-- `ruleC6` after the icmp-switching update. -/
def ruleC6_icmp : FirewallRuleV2 := { ruleC6 with protocol := some "icmp" }

/-- C6 counterexample: the rule is reachable by creation (tcp, destination
port "80"), and an update that merely switches the protocol to `icmp` is
*accepted*, leaving a merged state with a non-port-carrying protocol and a
configured destination port — the claim requires this update to be
rejected with an invalid-parameter error. -/
theorem claim_C6_counterexample :
    create_firewall_rule "r6" ruleC6_create = .ok ruleC6 ∧
    update_firewall_rule ruleC6 [] { protocol := some (some "icmp") } =
      .ok (ruleC6_icmp, []) ∧
    ruleC6_icmp.protocol = some "icmp" ∧
    ruleC6_icmp.destination_port_range_min = some 80 :=
  ⟨rfl, rfl, rfl, rfl⟩

/-- The errors the spec's taxonomy classifies as InvalidParameter
(malformed port range, port-without-protocol, IP-version mismatch). -/
def invalid_parameter_error (e : FwErr) : Prop :=
  e = .FirewallRuleInvalidICMPParameter ∨
  e = .FirewallRuleWithPortWithoutProtocolInvalid ∨
  e = .FirewallIpAddressConflict ∨
  ∃ s, e = .FirewallRuleInvalidPortValue s

/-- The merged minimum port used by the update path's second check: the
parsed request value when the port key is present, else the stored
column. -/
def effective_port_min (patch_port : Option (Option String))
    (stored : Option Nat) : Option Nat :=
  match patch_port with
  | some sp =>
    match get_min_max_ports_from_range sp with
    | .ok v => v.1
    | .error _ => none
  | none => stored

theorem validate_fwr_protocol_parameters_error (p sp dp : Option String)
    (dbp : Option (Option String)) (e : FwErr)
    (h : validate_fwr_protocol_parameters p sp dp dbp = .error e) :
    e = .FirewallRuleInvalidICMPParameter := by
  unfold validate_fwr_protocol_parameters at h
  repeat'
    first
    | (split at h)
    | simp_all

theorem validate_fwr_src_dst_ip_version_error (src dst : Option String)
    (ipv : Option Nat) (dbv : Option (Option Nat)) (e : FwErr)
    (h : validate_fwr_src_dst_ip_version src dst ipv dbv = .error e) :
    e = .FirewallIpAddressConflict := by
  unfold validate_fwr_src_dst_ip_version at h
  repeat'
    first
    | (split at h)
    | simp_all

theorem falsy_protocol_not_port_proto (p : Option String)
    (h : truthyStr p = false) :
    (p != some PROTO_NAME_TCP && p != some PROTO_NAME_UDP) = true := by
  cases p with
  | none => rfl
  | some s =>
    have he : s.isEmpty = true := by simpa [truthyStr] using h
    have hs : s = "" := (String.isEmpty_iff s).mp he
    subst hs
    rfl

/-- C6 (amended): the validators do merge the patch with the stored row
for the protocol field, and — whenever the merged protocol is absent/falsy
— for the minimum port fields too:
* creation with a falsy protocol and a truthy port string is rejected;
* an update whose merged protocol is falsy while a merged minimum port is
  configured is rejected with an InvalidParameter-class error.
(The remaining gap, exhibited by the counterexample, is an update that
switches the protocol to a truthy non-port-carrying value such as `icmp`
while the ports stay stored: no check fires.) -/
theorem claim_C6_merged_validation (newId : String) (fwrC : RuleCreate)
    (fwr_db : FirewallRuleV2) (policies : List FirewallPolicy)
    (fwr : RulePatch) :
    ((truthyStr fwrC.protocol = false ∧
      (truthyStr fwrC.source_port || truthyStr fwrC.destination_port) = true) →
      create_firewall_rule newId fwrC =
        .error .FirewallRuleInvalidICMPParameter) ∧
    ((truthyStr (match fwr.protocol with
        | some v => v
        | none => fwr_db.protocol) = false ∧
      (∀ sp, fwr.source_port = some sp →
        ∃ v, get_min_max_ports_from_range sp = .ok v) ∧
      (∀ dp, fwr.destination_port = some dp →
        ∃ v, get_min_max_ports_from_range dp = .ok v) ∧
      (truthyNat (effective_port_min fwr.source_port
          fwr_db.source_port_range_min) ||
        truthyNat (effective_port_min fwr.destination_port
          fwr_db.destination_port_range_min)) = true) →
      ∃ e, update_firewall_rule fwr_db policies fwr = .error e ∧
        invalid_parameter_error e) := by
  constructor
  · rintro ⟨hA, hB⟩
    have hcond := falsy_protocol_not_port_proto fwrC.protocol hA
    unfold create_firewall_rule validate_fwr_protocol_parameters
    simp only [Option.isSome_none, Bool.false_and, Bool.false_eq_true,
      if_false, hcond, if_true, hB]
  · rintro ⟨hproto, hsp, hdp, hport⟩
    cases h1 : validate_fwr_protocol_parameters (fwr.protocol.getD none)
        (fwr.source_port.getD none) (fwr.destination_port.getD none)
        (some fwr_db.protocol) with
    | error e =>
      refine ⟨e, ?_,
        Or.inl (validate_fwr_protocol_parameters_error _ _ _ _ _ h1)⟩
      simp [update_firewall_rule, h1]
    | ok u =>
      cases h2 : validate_fwr_src_dst_ip_version
          (fwr.source_ip_address.getD none)
          (fwr.destination_ip_address.getD none) (fwr.ip_version.getD none)
          (some fwr_db.ip_version) with
      | error e =>
        refine ⟨e, ?_, Or.inr (Or.inr (Or.inl
          (validate_fwr_src_dst_ip_version_error _ _ _ _ _ h2)))⟩
        simp [update_firewall_rule, h1, h2]
      | ok u2 =>
        refine ⟨.FirewallRuleWithPortWithoutProtocolInvalid, ?_,
          Or.inr (Or.inl rfl)⟩
        cases hsrc : fwr.source_port with
        | some sp =>
          obtain ⟨v, hv⟩ := hsp sp hsrc
          cases hdst : fwr.destination_port with
          | some dp =>
            obtain ⟨w, hw⟩ := hdp dp hdst
            have hport' := hport
            simp only [effective_port_min, hsrc, hdst, hv] at hport'
            rw [hw] at hport'
            simp only [hsrc, hdst, Option.getD_some] at h1
            simp only [update_firewall_rule, hsrc, hdst, Option.getD_some,
              Option.getD_none, h1, h2, hv, hw, Except.map, hproto,
              Bool.not_false, Bool.true_and, hport', if_true]
          | none =>
            have hport' := hport
            simp only [effective_port_min, hsrc, hdst, hv] at hport'
            simp only [hsrc, hdst, Option.getD_some, Option.getD_none] at h1
            simp only [update_firewall_rule, hsrc, hdst, Option.getD_some,
              Option.getD_none, h1, h2, hv, Except.map, hproto,
              Bool.not_false, Bool.true_and, hport', if_true]
        | none =>
          cases hdst : fwr.destination_port with
          | some dp =>
            obtain ⟨w, hw⟩ := hdp dp hdst
            have hport' := hport
            simp only [effective_port_min, hsrc, hdst] at hport'
            rw [hw] at hport'
            simp only [hsrc, hdst, Option.getD_some, Option.getD_none] at h1
            simp only [update_firewall_rule, hsrc, hdst, Option.getD_some,
              Option.getD_none, h1, h2, hw, Except.map, hproto,
              Bool.not_false, Bool.true_and, hport', if_true]
          | none =>
            have hport' := hport
            simp only [effective_port_min, hsrc, hdst] at hport'
            simp only [hsrc, hdst, Option.getD_none] at h1
            simp only [update_firewall_rule, hsrc, hdst, Option.getD_none,
              h1, h2, Except.map, hproto, Bool.not_false, Bool.true_and,
              hport', if_true]

theorem claim_C6_witness :
    create_firewall_rule "r7" ruleC6_create_noproto =
      .error .FirewallRuleInvalidICMPParameter ∧
    ∃ e, update_firewall_rule ruleC6 [] { protocol := some none } = .error e ∧
      invalid_parameter_error e := by
  refine ⟨(claim_C6_merged_validation "r7" ruleC6_create_noproto ruleC6 []
      { protocol := some none }).1 ⟨rfl, rfl⟩,
    (claim_C6_merged_validation "r7" ruleC6_create_noproto ruleC6 []
      { protocol := some none }).2 ⟨rfl, ?_, ?_, rfl⟩⟩
  · intro sp h
    simp at h
  · intro dp h
    simp at h

theorem find?_isSome_eq_any (p : α → Bool) (l : List α) :
    (l.find? p).isSome = l.any p := by
  induction l with
  | nil => rfl
  | cons a l ih =>
    cases hp : p a
    · simp [List.find?_cons, hp, ih]
    · simp [List.find?_cons, hp]

/-- A firewall group row named with the reserved default name for
project T. -/
def groupC7 : FirewallGroup := {
  id := "g1", tenant_id := "T", name := DEFAULT_FWG, description := "",
  ingress_firewall_policy_id := none, egress_firewall_policy_id := none,
  admin_state_up := true, status := STATUS_INACTIVE, shared := false }

/-- A database holding `groupC7` but *no* marker row. -/
def dbC7 : DB := { groups := [groupC7] }

/-- C7 counterexample: two databases with identical marker-table contents
(none at all) on which the bootstrapper's "does a default already exist"
decision differs — the decision therefore does not depend on the marker
row's existence alone.  In `dbC7` a group named `default` exists without
any marker row, and the decision is "exists". -/
theorem claim_C7_counterexample :
    marker_exists dbC7 "T" = marker_exists ({} : DB) "T" ∧
    default_exists_decision dbC7 "T" ≠ default_exists_decision ({} : DB) "T" :=
  ⟨rfl, by decide⟩

/-- C7 (amended): the bootstrapper's "does a default already exist"
decision is exactly the existence of a firewall *group* row whose project
is the tenant and whose *name* is the reserved default name; the
DefaultGroupMarker table is never consulted by the check (its `project_id`
primary key only resolves the concurrent-bootstrap race). -/
theorem claim_C7_decision_by_name (db : DB) (tenant_id : String) :
    default_exists_decision db tenant_id =
      db.groups.any (fun g => g.tenant_id == tenant_id &&
        g.name == DEFAULT_FWG) ∧
    ∀ m, default_exists_decision { db with default_groups := m } tenant_id =
      default_exists_decision db tenant_id := by
  constructor
  · unfold default_exists_decision get_default_fwg_id
    rw [Option.isSome_map']
    exact find?_isSome_eq_any _ _
  · intro m
    rfl

/-- C9 counterexample: an update whose body names the reserved default
group name, applied to an *unknown* group id, is rejected by the
default-name guard (`FirewallDefaultParameterExists`, a conflict) before
the existence check — not with NotFound as the claim states for every
update on an unknown id. -/
theorem claim_C9_counterexample :
    (({} : DB).groups.find? (fun g => g.id == "gX")) = none ∧
    update_firewall_group false {} "gX" { name := some DEFAULT_FWG } =
      .error (.FirewallDefaultParameterExists "Firewall Group" DEFAULT_FWG) :=
  ⟨rfl, rfl⟩

/-- C9 (amended): deleting an unknown group id succeeds as a silent no-op
(the `FirewallGroupNotFound` from the lookup is caught and the state is
returned unchanged), while `get_firewall_group` raises
`FirewallGroupNotFound` and `update_firewall_group` raises it too for
every update body that does not itself carry the reserved default name
(that one is rejected earlier by the name guard). -/
theorem claim_C9_delete_silent_noop (db : DB) (id : String) (is_admin : Bool)
    (upd : GroupUpdate)
    (hno : db.groups.find? (fun g => g.id == id) = none)
    (hname : upd.name.getD "" ≠ DEFAULT_FWG) :
    delete_firewall_group is_admin db id = .ok db ∧
    get_firewall_group db id = .error (.FirewallGroupNotFound id) ∧
    update_firewall_group is_admin db id upd =
      .error (.FirewallGroupNotFound id) := by
  have hbeq : (upd.name.getD "" == DEFAULT_FWG) = false :=
    beq_eq_false_iff_ne.mpr hname
  refine ⟨?_, ?_, ?_⟩
  · unfold delete_firewall_group
    rw [hno]
  · unfold get_firewall_group
    rw [hno]
  · unfold update_firewall_group get_firewall_group
    rw [hno]
    simp [hbeq]

theorem claim_C9_witness :
    delete_firewall_group false ({} : DB) "gX" = .ok {} ∧
    get_firewall_group {} "gX" = .error (.FirewallGroupNotFound "gX") ∧
    update_firewall_group false {} "gX" { description := some "d" } =
      .error (.FirewallGroupNotFound "gX") :=
  claim_C9_delete_silent_noop {} "gX" false { description := some "d" } rfl
    (by decide)

/-- The stored row of one default firewall rule. -/
def default_rule_row (id tid name description : String) (ipv : Nat)
    (action : String) : FirewallRuleV2 := {
  id := id, tenant_id := tid, name := name, description := description,
  shared := false, protocol := none, ip_version := some ipv,
  source_ip_address := none, destination_ip_address := none,
  source_port_range_min := none, source_port_range_max := none,
  destination_port_range_min := none, destination_port_range_max := none,
  action := action, enabled := true }

/-- The four default rule rows as they sit in the rules table (most recent
first) after `_create_default_firewall_rules`. -/
def default_rules_of (tid : String) (ids : DefaultRuleIds) :
    List FirewallRuleV2 :=
  [default_rule_row ids.eg_ipv6 tid "default egress ipv6 (allow all)"
      "default egress rule for IPv6" 6 "allow",
   default_rule_row ids.eg_ipv4 tid "default egress ipv4 (allow all)"
      "default egress rule for IPv4" 4 "allow",
   default_rule_row ids.in_ipv6 tid "default ingress ipv6 (deny all)"
      "default ingress rule for IPv6" 6 "deny",
   default_rule_row ids.in_ipv4 tid "default ingress ipv4 (deny all)"
      "default ingress rule for IPv4" 4 "deny"]

/-- The four default rule dicts always pass creation validation. -/
theorem create_default_firewall_rules_eq (db : DB) (tid : String)
    (ids : DefaultRuleIds) :
    create_default_firewall_rules db tid ids =
      .ok { db with rules := default_rules_of tid ids ++ db.rules } := rfl

/-- The stored row of one default firewall policy holding its two rules at
positions 1 and 2. -/
def default_policy_row (newId tid : String) (ingress : Bool)
    (desc a b : String) : FirewallPolicy := {
  id := newId, tenant_id := tid,
  name := if ingress then DEFAULT_FWP_INGRESS else DEFAULT_FWP_EGRESS,
  description := desc, audited := false, shared := false,
  rule_associations := [⟨a, 1⟩, ⟨b, 2⟩] }

/-- `_create_default_firewall_policy` on a two-rule list whose rules exist:
the policy row is created with the pair at positions 1, 2. -/
theorem create_default_policy_pair (db : DB) (newId tid desc : String)
    (ingress : Bool) (a b : String) (ra rb : FirewallRuleV2)
    (hab : a ≠ b)
    (hfa : db.rules.find? (fun r => r.id == a) = some ra)
    (hfb : db.rules.find? (fun r => r.id == b) = some rb) :
    create_default_firewall_policy db newId tid ingress [a, b] desc =
      .ok ({ db with policies :=
          default_policy_row newId tid ingress desc a b :: db.policies },
        default_policy_row newId tid ingress desc a b) := by
  have hnd : ([a, b] : List String).Nodup := by simp [hab]
  unfold create_default_firewall_policy do_create_firewall_policy
  unfold set_rules_for_policy
  simp only [check_rules_for_policy_is_valid, hfa, hfb, Option.getD_some,
    List.isEmpty_cons, Bool.false_and, Bool.false_eq_true, if_false]
  rw [if_pos hnd]
  simp [default_policy_row, reorder, reorderFrom]

/-- The group row built by the default-group branch of
`_create_firewall_group`. -/
def firewall_group_row (newId : String) (fwg : GroupCreate)
    (status : String) : FirewallGroup := {
  id := newId, tenant_id := fwg.tenant_id, name := fwg.name,
  description := fwg.description,
  ingress_firewall_policy_id := fwg.ingress_firewall_policy_id,
  egress_firewall_policy_id := fwg.egress_firewall_policy_id,
  admin_state_up := fwg.admin_state_up, status := status,
  shared := fwg.shared }

/-- The default-group creation branch when no default exists yet, the
policy references validate, and no ports are bound. -/
theorem create_firewall_group_default_eq (db : DB) (newId : String)
    (fwg : GroupCreate) (status : String)
    (h0 : db.groups.find? (fun g => g.tenant_id == fwg.tenant_id &&
      g.name == DEFAULT_FWG) = none)
    (hports : fwg.ports = [])
    (hv : validate_tenant_for_fwg_policies db.policies
      (some fwg.ingress_firewall_policy_id)
      (some fwg.egress_firewall_policy_id) fwg.tenant_id = .ok ()) :
    create_firewall_group_default db newId fwg status =
      .ok ({ db with groups := firewall_group_row newId fwg status ::
        db.groups }, newId) := by
  unfold create_firewall_group_default get_default_fwg_id
  rw [h0]
  simp only [Option.map_none', hv]
  unfold set_ports_for_firewall_group
  rw [hports]
  simp [firewall_group_row]

/-- C8: a bootstrap attempt that loses the race to insert the per-project
default marker does not raise.  `db0` is the attempt's read snapshot (no
default group visible, so the creation path runs end to end on fresh
uuids), `db1` the state committed by the concurrent winner (marker row
present, so the final `DefaultFirewallGroup` insert violates the
`project_id` primary key with `DBDuplicateEntry`); the conflict is caught,
the now-existing default group is re-read from the committed state and its
id `gid` is returned to the caller. -/
theorem claim_C8_race_loss (db0 db1 : DB) (tenant_id gid : String)
    (ids : IdSupply)
    (h0 : get_default_fwg_id db0 tenant_id = none)
    (h12 : ids.in_ipv4 ≠ ids.in_ipv6) (h13 : ids.in_ipv4 ≠ ids.eg_ipv4)
    (h14 : ids.in_ipv4 ≠ ids.eg_ipv6) (h23 : ids.in_ipv6 ≠ ids.eg_ipv4)
    (h24 : ids.in_ipv6 ≠ ids.eg_ipv6) (h34 : ids.eg_ipv4 ≠ ids.eg_ipv6)
    (hpol : ids.ingress_fwp ≠ ids.egress_fwp)
    (h1 : marker_exists db1 tenant_id = true)
    (h2 : get_default_fwg_id db1 tenant_id = some gid) :
    ensure_default_firewall_group db0 db1 tenant_id ids =
      .ok (some gid, db1) := by
  have e1 : (ids.eg_ipv6 == ids.in_ipv4) = false :=
    beq_eq_false_iff_ne.mpr (Ne.symm h14)
  have e2 : (ids.eg_ipv4 == ids.in_ipv4) = false :=
    beq_eq_false_iff_ne.mpr (Ne.symm h13)
  have e3 : (ids.in_ipv6 == ids.in_ipv4) = false :=
    beq_eq_false_iff_ne.mpr (Ne.symm h12)
  have e4 : (ids.eg_ipv6 == ids.in_ipv6) = false :=
    beq_eq_false_iff_ne.mpr (Ne.symm h24)
  have e5 : (ids.eg_ipv4 == ids.in_ipv6) = false :=
    beq_eq_false_iff_ne.mpr (Ne.symm h23)
  have e6 : (ids.eg_ipv6 == ids.eg_ipv4) = false :=
    beq_eq_false_iff_ne.mpr (Ne.symm h34)
  have epol : (ids.egress_fwp == ids.ingress_fwp) = false :=
    beq_eq_false_iff_ne.mpr (Ne.symm hpol)
  have hfa : (default_rules_of tenant_id
      ⟨ids.in_ipv4, ids.in_ipv6, ids.eg_ipv4, ids.eg_ipv6⟩ ++
        db0.rules).find? (fun r => r.id == ids.in_ipv4) =
      some (default_rule_row ids.in_ipv4 tenant_id
        "default ingress ipv4 (deny all)" "default ingress rule for IPv4" 4
        "deny") := by
    simp only [default_rules_of, default_rule_row, List.cons_append,
      List.nil_append, List.find?_cons, e1, e2, e3, beq_self_eq_true]
  have hfb : (default_rules_of tenant_id
      ⟨ids.in_ipv4, ids.in_ipv6, ids.eg_ipv4, ids.eg_ipv6⟩ ++
        db0.rules).find? (fun r => r.id == ids.in_ipv6) =
      some (default_rule_row ids.in_ipv6 tenant_id
        "default ingress ipv6 (deny all)" "default ingress rule for IPv6" 6
        "deny") := by
    simp only [default_rules_of, default_rule_row, List.cons_append,
      List.nil_append, List.find?_cons, e4, e5, beq_self_eq_true]
  have hfc : (default_rules_of tenant_id
      ⟨ids.in_ipv4, ids.in_ipv6, ids.eg_ipv4, ids.eg_ipv6⟩ ++
        db0.rules).find? (fun r => r.id == ids.eg_ipv4) =
      some (default_rule_row ids.eg_ipv4 tenant_id
        "default egress ipv4 (allow all)" "default egress rule for IPv4" 4
        "allow") := by
    simp only [default_rules_of, default_rule_row, List.cons_append,
      List.nil_append, List.find?_cons, e6, beq_self_eq_true]
  have hfd : (default_rules_of tenant_id
      ⟨ids.in_ipv4, ids.in_ipv6, ids.eg_ipv4, ids.eg_ipv6⟩ ++
        db0.rules).find? (fun r => r.id == ids.eg_ipv6) =
      some (default_rule_row ids.eg_ipv6 tenant_id
        "default egress ipv6 (allow all)" "default egress rule for IPv6" 6
        "allow") := by
    simp only [default_rules_of, default_rule_row, List.cons_append,
      List.nil_append, List.find?_cons, beq_self_eq_true]
  have hing := create_default_policy_pair
    { rules := default_rules_of tenant_id
        ⟨ids.in_ipv4, ids.in_ipv6, ids.eg_ipv4, ids.eg_ipv6⟩ ++ db0.rules,
      policies := db0.policies, groups := db0.groups,
      group_ports := db0.group_ports, default_groups := db0.default_groups }
    ids.ingress_fwp tenant_id "Ingress firewall policy" true ids.in_ipv4
    ids.in_ipv6 _ _ h12 hfa hfb
  have heg := create_default_policy_pair
    { rules := default_rules_of tenant_id
        ⟨ids.in_ipv4, ids.in_ipv6, ids.eg_ipv4, ids.eg_ipv6⟩ ++ db0.rules,
      policies := default_policy_row ids.ingress_fwp tenant_id true
        "Ingress firewall policy" ids.in_ipv4 ids.in_ipv6 :: db0.policies,
      groups := db0.groups, group_ports := db0.group_ports,
      default_groups := db0.default_groups }
    ids.egress_fwp tenant_id "Egress firewall policy" false ids.eg_ipv4
    ids.eg_ipv6 _ _ h34 hfc hfd
  have h0u : db0.groups.find? (fun g => g.tenant_id == tenant_id &&
      g.name == DEFAULT_FWG) = none := Option.map_eq_none'.mp h0
  have hvp : validate_tenant_for_fwg_policies
      (default_policy_row ids.egress_fwp tenant_id false
          "Egress firewall policy" ids.eg_ipv4 ids.eg_ipv6 ::
        default_policy_row ids.ingress_fwp tenant_id true
          "Ingress firewall policy" ids.in_ipv4 ids.in_ipv6 :: db0.policies)
      (some (some ids.ingress_fwp)) (some (some ids.egress_fwp)) tenant_id =
      .ok () := by
    unfold validate_tenant_for_fwg_policies validate_one_fwg_policy
    simp only [default_policy_row, List.find?_cons, epol, beq_self_eq_true,
      bne_self_eq_false, Bool.false_and, Bool.and_false, Bool.false_eq_true,
      if_false]
  have hgrp := create_firewall_group_default_eq
    { rules := default_rules_of tenant_id
        ⟨ids.in_ipv4, ids.in_ipv6, ids.eg_ipv4, ids.eg_ipv6⟩ ++ db0.rules,
      policies := default_policy_row ids.egress_fwp tenant_id false
          "Egress firewall policy" ids.eg_ipv4 ids.eg_ipv6 ::
        default_policy_row ids.ingress_fwp tenant_id true
          "Ingress firewall policy" ids.in_ipv4 ids.in_ipv6 :: db0.policies,
      groups := db0.groups, group_ports := db0.group_ports,
      default_groups := db0.default_groups }
    ids.fwg
    { tenant_id := tenant_id, name := DEFAULT_FWG,
      description := "Default firewall group",
      ingress_firewall_policy_id := some (default_policy_row ids.ingress_fwp
        tenant_id true "Ingress firewall policy" ids.in_ipv4 ids.in_ipv6).id,
      egress_firewall_policy_id := some (default_policy_row ids.egress_fwp
        tenant_id false "Egress firewall policy" ids.eg_ipv4 ids.eg_ipv6).id,
      admin_state_up := true, shared := false, ports := [] }
    STATUS_INACTIVE h0u rfl hvp
  unfold ensure_default_firewall_group
  rw [h0]
  simp only [create_default_firewall_rules_eq, hing, heg, hgrp, h1, if_true,
    h2]

/-- The committed state left by the winning bootstrap: one default-named
group and one marker row for project T. -/
def dbC8 : DB := {
  groups := [{ groupC7 with id := "g9" }],
  default_groups := [⟨"T", "g9"⟩] }

theorem claim_C8_witness :
    ensure_default_firewall_group {} dbC8 "T"
      ⟨"i4", "i6", "e4", "e6", "ip", "ep", "g"⟩ = .ok (some "g9", dbC8) :=
  claim_C8_race_loss {} dbC8 "T" "g9"
    ⟨"i4", "i6", "e4", "e6", "ip", "ep", "g"⟩ rfl (by decide) (by decide)
    (by decide) (by decide) (by decide) (by decide) (by decide) (by decide)
    (by decide)
